import Mathlib

/-!
Verification of the FormatNormalizer media tool.

This file shallowly embeds the parameter-resolution, command-building and
output-validation code of the repository into Lean.  Python dictionaries are
modelled as ordered association lists of `PVal` values (`PDict`), mirroring
insertion-order semantics of CPython dicts; Python exceptions are modelled with
`Except String` (the exact exception message text is a modelling choice, the
control flow is the point); Python float arithmetic inside the validators is
modelled with exact rationals (all divisions in the embedded code are guarded
by positivity tests in the source, so no rounding-sensitive behaviour is
claimed).
-/

/-- A Python value as it occurs in the normalizer code: strings, ints,
`None`, booleans, lists and string-keyed dicts (ordered). -/
inductive PVal where
  | str : String → PVal
  | int : Int → PVal
  | none : PVal
  | bool : Bool → PVal
  | list : List PVal → PVal
  | dict : List (String × PVal) → PVal
deriving Repr

/-- An ordered string-keyed Python dict. -/
abbrev PDict := List (String × PVal)

mutual
def PVal.beq : PVal → PVal → Bool
  | .str a, .str b => a == b
  | .int a, .int b => a == b
  | .none, .none => true
  | .bool a, .bool b => a == b
  | .list a, .list b => PVal.beqList a b
  | .dict a, .dict b => PVal.beqDict a b
  | _, _ => false
def PVal.beqList : List PVal → List PVal → Bool
  | [], [] => true
  | a :: as, b :: bs => PVal.beq a b && PVal.beqList as bs
  | _, _ => false
def PVal.beqDict : List (String × PVal) → List (String × PVal) → Bool
  | [], [] => true
  | (ka, va) :: as, (kb, vb) :: bs => ka == kb && PVal.beq va vb && PVal.beqDict as bs
  | _, _ => false
end

instance : BEq PVal := ⟨PVal.beq⟩

mutual
def PVal.beq_refl : (a : PVal) → PVal.beq a a = true
  | .str _ => by simp [PVal.beq]
  | .int _ => by simp [PVal.beq]
  | .none => by simp [PVal.beq]
  | .bool _ => by simp [PVal.beq]
  | .list xs => by simp [PVal.beq, PVal.beqList_refl xs]
  | .dict xs => by simp [PVal.beq, PVal.beqDict_refl xs]
def PVal.beqList_refl : (xs : List PVal) → PVal.beqList xs xs = true
  | [] => by simp [PVal.beqList]
  | x :: xs => by simp [PVal.beqList, PVal.beq_refl x, PVal.beqList_refl xs]
def PVal.beqDict_refl : (xs : List (String × PVal)) → PVal.beqDict xs xs = true
  | [] => by simp [PVal.beqDict]
  | (k, v) :: xs => by simp [PVal.beqDict, PVal.beq_refl v, PVal.beqDict_refl xs]
end

mutual
def PVal.eq_of_beq : {a b : PVal} → PVal.beq a b = true → a = b
  | .str _, .str _, h => by simpa [PVal.beq] using congrArg PVal.str (by simpa [PVal.beq] using h)
  | .int _, .int _, h => by simpa [PVal.beq] using congrArg PVal.int (by simpa [PVal.beq] using h)
  | .none, .none, _ => rfl
  | .bool _, .bool _, h => by simpa [PVal.beq] using congrArg PVal.bool (by simpa [PVal.beq] using h)
  | .list _, .list _, h => congrArg PVal.list (PVal.eqList_of_beq (by simpa [PVal.beq] using h))
  | .dict _, .dict _, h => congrArg PVal.dict (PVal.eqDict_of_beq (by simpa [PVal.beq] using h))
  | .str _, .int _, h => by simp [PVal.beq] at h
  | .str _, .none, h => by simp [PVal.beq] at h
  | .str _, .bool _, h => by simp [PVal.beq] at h
  | .str _, .list _, h => by simp [PVal.beq] at h
  | .str _, .dict _, h => by simp [PVal.beq] at h
  | .int _, .str _, h => by simp [PVal.beq] at h
  | .int _, .none, h => by simp [PVal.beq] at h
  | .int _, .bool _, h => by simp [PVal.beq] at h
  | .int _, .list _, h => by simp [PVal.beq] at h
  | .int _, .dict _, h => by simp [PVal.beq] at h
  | .none, .str _, h => by simp [PVal.beq] at h
  | .none, .int _, h => by simp [PVal.beq] at h
  | .none, .bool _, h => by simp [PVal.beq] at h
  | .none, .list _, h => by simp [PVal.beq] at h
  | .none, .dict _, h => by simp [PVal.beq] at h
  | .bool _, .str _, h => by simp [PVal.beq] at h
  | .bool _, .int _, h => by simp [PVal.beq] at h
  | .bool _, .none, h => by simp [PVal.beq] at h
  | .bool _, .list _, h => by simp [PVal.beq] at h
  | .bool _, .dict _, h => by simp [PVal.beq] at h
  | .list _, .str _, h => by simp [PVal.beq] at h
  | .list _, .int _, h => by simp [PVal.beq] at h
  | .list _, .none, h => by simp [PVal.beq] at h
  | .list _, .bool _, h => by simp [PVal.beq] at h
  | .list _, .dict _, h => by simp [PVal.beq] at h
  | .dict _, .str _, h => by simp [PVal.beq] at h
  | .dict _, .int _, h => by simp [PVal.beq] at h
  | .dict _, .none, h => by simp [PVal.beq] at h
  | .dict _, .bool _, h => by simp [PVal.beq] at h
  | .dict _, .list _, h => by simp [PVal.beq] at h
def PVal.eqList_of_beq : {a b : List PVal} → PVal.beqList a b = true → a = b
  | [], [], _ => rfl
  | x :: xs, y :: ys, h => by
      have h' : PVal.beq x y = true ∧ PVal.beqList xs ys = true := by
        simpa [PVal.beqList, Bool.and_eq_true] using h
      exact by rw [PVal.eq_of_beq h'.1, PVal.eqList_of_beq h'.2]
  | [], _ :: _, h => by simp [PVal.beqList] at h
  | _ :: _, [], h => by simp [PVal.beqList] at h
def PVal.eqDict_of_beq : {a b : List (String × PVal)} → PVal.beqDict a b = true → a = b
  | [], [], _ => rfl
  | (ka, va) :: xs, (kb, vb) :: ys, h => by
      have h' : (ka == kb) = true ∧ PVal.beq va vb = true ∧ PVal.beqDict xs ys = true := by
        simpa [PVal.beqDict, Bool.and_eq_true, and_assoc] using h
      have hk : ka = kb := by simpa using h'.1
      rw [hk, PVal.eq_of_beq h'.2.1, PVal.eqDict_of_beq h'.2.2]
  | [], _ :: _, h => by simp [PVal.beqDict] at h
  | _ :: _, [], h => by simp [PVal.beqDict] at h
end

instance : DecidableEq PVal := fun a b =>
  if h : PVal.beq a b = true then
    Decidable.isTrue (PVal.eq_of_beq h)
  else
    Decidable.isFalse (fun he => h (he ▸ PVal.beq_refl a))

instance : LawfulBEq PVal where
  eq_of_beq := PVal.eq_of_beq
  rfl := PVal.beq_refl _

/-! ## Dict primitives (CPython dict semantics on ordered assoc lists) -/

/-- `d.get(k)` style lookup returning the first binding, if any. -/
def PDict.find? (d : PDict) (k : String) : Option PVal :=
  match d with
  | [] => Option.none
  | (k0, v0) :: rest => if k0 = k then some v0 else PDict.find? rest k

/-- `k in d` membership test. -/
def PDict.hasKey (d : PDict) (k : String) : Bool :=
  (PDict.find? d k).isSome

/-- `d.get(k, dflt)`. -/
def PDict.getD (d : PDict) (k : String) (dflt : PVal) : PVal :=
  (PDict.find? d k).getD dflt

/-- `d[k] = v`: replace the value in place if the key exists (keeping its
position, as CPython does), otherwise append the new binding. -/
def PDict.setK (d : PDict) (k : String) (v : PVal) : PDict :=
  match d with
  | [] => [(k, v)]
  | (k0, v0) :: rest =>
      if k0 = k then (k0, v) :: rest else (k0, v0) :: PDict.setK rest k v

/-- `d.update(other)`: set each binding of `other` in order. -/
def PDict.updateD (d other : PDict) : PDict :=
  other.foldl (fun acc kv => PDict.setK acc kv.1 kv.2) d

/-- Keys of a dict, in order. -/
def PDict.keys (d : PDict) : List String := d.map Prod.fst

/-! ## Python built-in semantics -/

/-- Python truthiness: empty strings/containers, `0`, `False` and `None`
are falsy, everything else truthy. -/
def pyTruthy : PVal → Bool
  | .str s => !s.isEmpty
  | .int n => n != 0
  | .none => false
  | .bool b => b
  | .list xs => !xs.isEmpty
  | .dict d => !d.isEmpty

/-- A single-quote character, used when rendering Python reprs. -/
def sqChar : Char := Char.ofNat 39

mutual
/-- Python `repr` of a value (strings get single quotes), as used when a
value is interpolated inside a container rendering. -/
def pyRepr : PVal → String
  | .str s => String.singleton sqChar ++ s ++ String.singleton sqChar
  | .int n => toString n
  | .none => "None"
  | .bool b => if b then "True" else "False"
  | .list xs => "[" ++ String.intercalate ", " (pyReprList xs) ++ "]"
  | .dict d => "\x7b" ++ String.intercalate ", " (pyReprPairs d) ++ "\x7d"
def pyReprList : List PVal → List String
  | [] => []
  | x :: xs => pyRepr x :: pyReprList xs
def pyReprPairs : List (String × PVal) → List String
  | [] => []
  | (k, v) :: xs =>
      (String.singleton sqChar ++ k ++ String.singleton sqChar ++ ": " ++ pyRepr v) :: pyReprPairs xs
end

/-- Python `str()` of a value. -/
def pyStr : PVal → String
  | .str s => s
  | v => pyRepr v

/-- `s.lower()` on a string. -/
def pyLowerStr (s : String) : String := String.mk (s.data.map Char.toLower)

/-- Attribute call `.lower()` on an arbitrary value: only strings have it. -/
def pyLowerE : PVal → Except String String
  | .str s => .ok (pyLowerStr s)
  | _ => .error "AttributeError: lower"

/-- Python `s.strip()`, at the character level. -/
def pyStripStr (s : String) : String :=
  String.mk (((s.data.dropWhile Char.isWhitespace).reverse.dropWhile Char.isWhitespace).reverse)

/-- `int(s)` on a string: optional sign followed by at least one digit
(surrounding whitespace stripped).  Anything else raises `ValueError`. -/
def pyIntStr (s : String) : Except String Int :=
  let t := pyStripStr s
  let core :=
    match t.data with
    | '-' :: rest => some (true, rest)
    | '+' :: rest => some (false, rest)
    | rest => some (false, rest)
  match core with
  | some (neg, ds) =>
      if ds ≠ [] ∧ ds.all Char.isDigit then
        let n : Nat := ds.foldl (fun acc c => acc * 10 + (c.toNat - 48)) 0
        .ok (if neg then -(n : Int) else (n : Int))
      else .error ("ValueError: invalid int literal: " ++ s)
  | Option.none => .error ("ValueError: invalid int literal: " ++ s)

/-- `int(x)` on a value. -/
def pyToInt : PVal → Except String Int
  | .int n => .ok n
  | .bool b => .ok (if b then 1 else 0)
  | .str s => pyIntStr s
  | _ => .error "TypeError: int() argument"

/-- Python float arithmetic is modelled with exact unnormalized fractions:
a numerator and a (positive, by construction) denominator.  All operations
are plain integer arithmetic so every value the embedded code computes is
kernel-evaluable.  (All divisions in the embedded code are guarded by
positivity tests in the source, so exactness never masks a float
rounding issue that a claim depends on.) -/
structure PyFloat where
  num : Int
  den : Int
deriving DecidableEq, Repr

namespace PyFloat

/-- Embed an integer. -/
def ofInt (n : Int) : PyFloat := ⟨n, 1⟩

instance : OfNat PyFloat n := ⟨⟨(n : Int), 1⟩⟩
instance : Add PyFloat := ⟨fun a b => ⟨a.num * b.den + b.num * a.den, a.den * b.den⟩⟩
instance : Sub PyFloat := ⟨fun a b => ⟨a.num * b.den - b.num * a.den, a.den * b.den⟩⟩
instance : Mul PyFloat := ⟨fun a b => ⟨a.num * b.num, a.den * b.den⟩⟩
instance : Neg PyFloat := ⟨fun a => ⟨-a.num, a.den⟩⟩
instance : Div PyFloat :=
  ⟨fun a b =>
    if b.num < 0 then ⟨-(a.num * b.den), a.den * (-b.num)⟩
    else ⟨a.num * b.den, a.den * b.num⟩⟩
instance : LT PyFloat := ⟨fun a b => a.num * b.den < b.num * a.den⟩
instance : LE PyFloat := ⟨fun a b => a.num * b.den ≤ b.num * a.den⟩

instance (a b : PyFloat) : Decidable (a < b) :=
  inferInstanceAs (Decidable (a.num * b.den < b.num * a.den))

instance (a b : PyFloat) : Decidable (a ≤ b) :=
  inferInstanceAs (Decidable (a.num * b.den ≤ b.num * a.den))

/-- `abs` on fractions with positive denominator. -/
def pabs (q : PyFloat) : PyFloat := if q.num < 0 then ⟨-q.num, q.den⟩ else q

end PyFloat

/-- `float(s)` on a string: optional sign, digits, optional fractional part.
(The embedded code only ever meets plain decimal literals.) -/
def pyFloatStr (s : String) : Except String PyFloat :=
  let t := pyStripStr s
  let (neg, body) :=
    match t.data with
    | '-' :: rest => (true, rest)
    | '+' :: rest => (false, rest)
    | rest => (false, rest)
  let (ip, rest) := (body.takeWhile Char.isDigit, body.dropWhile Char.isDigit)
  let ok :=
    match rest with
    | [] => decide (ip ≠ [])
    | '.' :: fp => (decide (ip ≠ []) || decide (fp ≠ [])) && fp.all Char.isDigit
    | _ => false
  if ok then
    let fp := match rest with | '.' :: fp => fp | _ => []
    let ipn : Nat := ip.foldl (fun acc c => acc * 10 + (c.toNat - 48)) 0
    let fpn : Nat := fp.foldl (fun acc c => acc * 10 + (c.toNat - 48)) 0
    let q : PyFloat := ⟨(ipn : Int) * (10 : Int) ^ fp.length + (fpn : Int), (10 : Int) ^ fp.length⟩
    .ok (if neg then -q else q)
  else .error ("ValueError: could not convert string to float: " ++ s)

/-- `float(x)` on a value. -/
def pyToFloat : PVal → Except String PyFloat
  | .int n => .ok (PyFloat.ofInt n)
  | .bool b => .ok (if b then 1 else 0)
  | .str s => pyFloatStr s
  | _ => .error "TypeError: float() argument"

/-- Comparison `x <= 0` against the int literal `0`. -/
def pyLeZero : PVal → Except String Bool
  | .int n => .ok (n ≤ 0)
  | .bool b => .ok (b = false)
  | _ => .error "TypeError: unorderable types"

/-- `max(x, lo)` against an int literal. -/
def pyMaxInt : PVal → Int → Except String Int
  | .int n, lo => .ok (max n lo)
  | .bool b, lo => .ok (max (if b then 1 else 0) lo)
  | _, _ => .error "TypeError: max() argument"

/-- Attribute call `.get(k, dflt)`: only dicts have it. -/
def pyGetAttrD (v : PVal) (k : String) (dflt : PVal) : Except String PVal :=
  match v with
  | .dict d => .ok (PDict.getD d k dflt)
  | _ => .error "AttributeError: get"

/-- Attribute call `.get(k)` (default `None`). -/
def pyGetAttr (v : PVal) (k : String) : Except String PVal :=
  pyGetAttrD v k .none

/-- Subscript `v[k]` with a string key: `KeyError` when missing, `TypeError`
on non-dicts. -/
def pyItemE (v : PVal) (k : String) : Except String PVal :=
  match v with
  | .dict d =>
      match PDict.find? d k with
      | some x => .ok x
      | Option.none => .error ("KeyError: " ++ k)
  | _ => .error "TypeError: subscript"

/-- Subscript on a dict directly. -/
def PDict.getE (d : PDict) (k : String) : Except String PVal :=
  match PDict.find? d k with
  | some v => .ok v
  | Option.none => .error ("KeyError: " ++ k)

/-- `needle in container` for a string needle: dict key test, substring test
on strings, element test on lists, `TypeError` otherwise. -/
def pyInOp (needle : String) (container : PVal) : Except String Bool :=
  match container with
  | .dict d => .ok (PDict.hasKey d needle)
  | .str s => .ok (decide (needle.data <:+: s.data))
  | .list xs => .ok (xs.contains (.str needle))
  | _ => .error "TypeError: argument of type is not iterable"

/-- Python `s.split(sep)` for a one-character separator: splits on every
occurrence, keeping empty segments. -/
def pySplitChar (sep : Char) (s : String) : List String :=
  let rec go : List Char → List Char → List String
    | [], acc => [String.mk acc.reverse]
    | c :: rest, acc =>
        if c = sep then String.mk acc.reverse :: go rest []
        else go rest (c :: acc)
  go s.data []

/-- Python `s.replace("k", "000")` for the one-character pattern used by the
AI bitrate-strategy merge. -/
def pyReplaceK (s : String) : String :=
  String.mk (s.data.flatMap (fun c => if c = 'k' then ['0', '0', '0'] else [c]))

/-- Format a non-negative fraction with `prec` digits after the decimal
point (Python `:.{prec}f` behaviour on the exactly-representable values met
in this development; ties rounded up). -/
def fmtFix (prec : Nat) (q : PyFloat) : String :=
  let scale : Nat := 10 ^ prec
  let n : Nat := (Int.fdiv (q.num * (scale : Int) * 2 + q.den) (2 * q.den)).toNat
  let ip := n / scale
  let fp := n % scale
  let fpStr := toString fp
  let pad := String.mk (List.replicate (prec - fpStr.length) '0')
  if prec = 0 then toString ip else toString ip ++ "." ++ pad ++ fpStr

/-- Iterate the `streams` entry of a probed-metadata dict looking for the
first stream whose `key` attribute equals `t`, with Python short-circuit
semantics (`next((s for s in streams if ...), None)`): elements after the
first match are never touched, a non-dict element reached before any match
raises, a non-list `streams` value raises. -/
def firstStreamTyped (meta : PDict) (key t : String) : Except String (Option PDict) :=
  match PDict.getD meta "streams" (.list []) with
  | .list xs => go xs
  | _ => .error "TypeError: streams is not a list"
where
  go : List PVal → Except String (Option PDict)
    | [] => .ok Option.none
    | .dict d :: rest =>
        if PDict.getD d key .none = .str t then .ok (some d) else go rest
    | _ :: _ => .error "AttributeError: stream is not a dict"

/-- `any(stream.get(key) == t for stream in meta.get("streams", []))` with
the same short-circuit semantics. -/
def anyStreamTyped (meta : PDict) (key t : String) : Except String Bool := do
  let fs ← firstStreamTyped meta key t
  pure fs.isSome

/-- Nested item assignment `d[k1][k2] = v` on a dict-of-dicts. -/
def setPath2 (fp : PDict) (k1 k2 : String) (v : PVal) : Except String PDict :=
  match PDict.getE fp k1 with
  | .error e => .error e
  | .ok (.dict d) => .ok (PDict.setK fp k1 (.dict (PDict.setK d k2 v)))
  | .ok _ => .error "TypeError: item assignment"

/-- Nested item assignment `d[k1][k2][k3] = v`. -/
def setPath3 (fp : PDict) (k1 k2 k3 : String) (v : PVal) : Except String PDict :=
  match PDict.getE fp k1 with
  | .error e => .error e
  | .ok (.dict d2) =>
      match pyItemE (.dict d2) k2 with
      | .error e => .error e
      | .ok (.dict d3) =>
          .ok (PDict.setK fp k1 (.dict (PDict.setK d2 k2 (.dict (PDict.setK d3 k3 v)))))
      | .ok _ => .error "TypeError: item assignment"
  | .ok _ => .error "TypeError: subscript"

/-! ## src/format_normalizer/normalizer.py — parameter resolver -/

namespace FormatNorm

/-- `FormatNormalizer._get_default_codec`: the (format → codec) default
table, with "h264" as the fallback. -/
def get_default_codec (format_type : String) : String :=
  let m : List (String × String) :=
    [("mp4", "h264"), ("mov", "prores"), ("mkv", "h265"), ("webm", "vp9"),
     ("avi", "h264"), ("mxf", "dnxhd"), ("mp3", "mp3"), ("wav", "pcm_s16le"),
     ("aac", "aac"), ("flac", "flac"), ("ogg", "vorbis"), ("m4a", "aac"),
     ("jpg", "mjpeg"), ("png", "png"), ("tiff", "tiff"), ("webp", "webp"),
     ("avif", "libaom-av1")]
  ((m.lookup (pyLowerStr format_type)).getD "h264")

/-- The preset parameter table built inside
`FormatNormalizer._prepare_format_parameters` (lines 192-268), as a function
of the preset name, the resolved codec value and the lowered format type. -/
def presetTable (preset : String) (codec : PVal) (format_type : String) : PDict :=
  let isH264 := codec == PVal.str "h264" || codec == PVal.str "libx264"
  if preset = "web" then
    [("video", .dict [("crf", .int (if isH264 then 23 else 28)),
                      ("preset", .str "medium"),
                      ("movflags", .str "+faststart")]),
     ("audio", .dict [("codec", .str "aac"), ("bitrate", .str "128k")])]
  else if preset = "social" then
    [("video", .dict [("crf", .int (if isH264 then 20 else 25)),
                      ("preset", .str "medium"),
                      ("movflags", .str "+faststart"),
                      ("maxrate", .str "4M"),
                      ("bufsize", .str "8M")]),
     ("audio", .dict [("codec", .str "aac"), ("bitrate", .str "192k")])]
  else if preset = "broadcast" then
    [("video", .dict [("profile", .str (if codec == PVal.str "prores" then "3" else "high")),
                      ("level", if isH264 then .str "5.1" else .none),
                      ("preset", if isH264 || codec == PVal.str "h265" || codec == PVal.str "libx265" then .str "slow" else .none),
                      ("pix_fmt", .str (if codec == PVal.str "prores" then "yuv422p10le" else "yuv420p"))]),
     ("audio", .dict [("codec", .str (if format_type = "mov" ∨ format_type = "mxf" then "pcm_s24le" else "aac")),
                      ("sample_rate", .str "48000")])]
  else if preset = "archive" then
    [("video", .dict [("profile", .str (if codec == PVal.str "prores" then "4444" else "high")),
                      ("pix_fmt", .str (if codec == PVal.str "prores" then "yuv444p10le" else "yuv420p")),
                      ("qscale", if codec == PVal.str "mjpeg" then .str "1" else .none)]),
     ("audio", .dict [("codec", .str "pcm_s24le"), ("sample_rate", .str "48000")])]
  else if preset = "mobile" then
    [("video", .dict [("crf", .int (if isH264 then 26 else 30)),
                      ("preset", .str "medium"),
                      ("movflags", .str "+faststart"),
                      ("maxrate", .str "2M"),
                      ("bufsize", .str "4M")]),
     ("audio", .dict [("codec", .str "aac"), ("bitrate", .str "96k")])]
  else
    [("video", .dict [("crf", .int (if isH264 then 23 else 28)),
                      ("preset", .str "medium")]),
     ("audio", .dict [("codec", .str "aac"), ("bitrate", .str "192k")])]

/-- The per-key merge loop of `_prepare_format_parameters` (lines 270-276):
for each override entry, `update` an existing section in place, otherwise
insert the new section. -/
def mergeParams (pp : PDict) (ov : PDict) : Except String PDict :=
  ov.foldlM (fun acc kv => do
    if PDict.hasKey acc kv.1 then
      let cur ← PDict.getE acc kv.1
      match cur, kv.2 with
      | .dict cd, .dict vd => pure (PDict.setK acc kv.1 (.dict (PDict.updateD cd vd)))
      | .dict _, _ => Except.error "TypeError: update argument"
      | _, _ => Except.error "AttributeError: update"
    else pure (PDict.setK acc kv.1 kv.2)) pp

/-- `FormatNormalizer._prepare_format_parameters` (lines 166-278): preset
defaults keyed by the (possibly defaulted) codec, then the caller-supplied
`parameters` override merged section by section. -/
def prepare_format_parameters (target_format : PDict) (preset : String) : Except String PDict := do
  let format_type ← pyLowerE (PDict.getD target_format "format" (.str "mp4"))
  let codec0 := PDict.getD target_format "codec" (.str "")
  let codec := if pyTruthy codec0 then codec0 else .str (get_default_codec format_type)
  let pp0 := presetTable preset codec format_type
  let pp ←
    if PDict.hasKey target_format "parameters" then
      match PDict.find? target_format "parameters" with
      | some (.dict ov) => mergeParams pp0 ov
      | _ => pure pp0
    else pure pp0
  pure [("format", .str format_type), ("codec", codec), ("preset", .str preset),
        ("parameters", .dict pp)]

/-- One iteration of the codec-parameter loop of
`_apply_ai_recommendations` (lines 298-300): assign into the video section
if the `parameters` mapping has one. -/
def aiCodecParamStep (acc : PDict) (kv : String × PVal) : Except String PDict :=
  match PDict.getE acc "parameters" with
  | .error e => .error e
  | .ok ps =>
      match pyInOp "video" ps with
      | .error e => .error e
      | .ok true => setPath3 acc "parameters" "video" kv.1 kv.2
      | .ok false => .ok acc

/-- The codec-parameters block of `_apply_ai_recommendations`
(lines 296-300). -/
def aiApplyCodecParams (fp : PDict) (recommendations : PVal) : Except String PDict :=
  match pyInOp "codec_parameters" recommendations with
  | .error e => .error e
  | .ok false => .ok fp
  | .ok true =>
      match pyItemE recommendations "codec_parameters" with
      | .error e => .error e
      | .ok (.dict cpd) => cpd.foldlM aiCodecParamStep fp
      | .ok _ => .ok fp

/-- The CBR arm of the bitrate-strategy block (lines 311-315): bitrate,
minrate and maxrate become the strategy value, and bufsize becomes
`f-string of int(value.replace("k", "000")) * 2` with "k" appended. -/
def aiCbrChain (fp : PDict) (svalue : PVal) : Except String PDict :=
  match setPath3 fp "parameters" "video" "bitrate" svalue with
  | .error e => .error e
  | .ok a =>
      match setPath3 a "parameters" "video" "minrate" svalue with
      | .error e => .error e
      | .ok b =>
          match setPath3 b "parameters" "video" "maxrate" svalue with
          | .error e => .error e
          | .ok c =>
              match svalue with
              | .str s =>
                  match pyIntStr (pyReplaceK s) with
                  | .error e => .error e
                  | .ok n =>
                      setPath3 c "parameters" "video" "bufsize"
                        (.str (toString (n * 2) ++ "k"))
              | _ => .error "AttributeError: replace"

/-- The strategy dispatch of the bitrate-strategy block (lines 305-317),
taking the already-extracted `type` and `value` entries. -/
def aiBitrateDispatch (fp : PDict) (stype svalue : PVal) : Except String PDict :=
  if pyTruthy stype ∧ pyTruthy svalue then
    match PDict.getE fp "parameters" with
    | .error e => .error e
    | .ok ps =>
        match pyInOp "video" ps with
        | .error e => .error e
        | .ok false => .ok fp
        | .ok true =>
            if stype = .str "CRF" then
              setPath3 fp "parameters" "video" "crf" svalue
            else if stype = .str "CBR" then aiCbrChain fp svalue
            else if stype = .str "VBR" then
              setPath3 fp "parameters" "video" "bitrate" svalue
            else .ok fp
  else .ok fp

/-- The bitrate-strategy block of `_apply_ai_recommendations`
(lines 302-317): CRF overwrites the CRF value, CBR runs `aiCbrChain`, VBR
sets the bitrate only, anything else leaves the parameters alone. -/
def aiApplyBitrate (fp : PDict) (recommendations : PVal) : Except String PDict :=
  match pyInOp "bitrate_strategy" recommendations with
  | .error e => .error e
  | .ok false => .ok fp
  | .ok true =>
      match pyItemE recommendations "bitrate_strategy" with
      | .error e => .error e
      | .ok (.dict sd) =>
          aiBitrateDispatch fp (PDict.getD sd "type" .none) (PDict.getD sd "value" .none)
      | .ok _ => .ok fp

/-- The extra-options block of `_apply_ai_recommendations` (lines 319-324):
create `parameters["ffmpeg_options"]` when absent, then extend it. -/
def aiApplyOptions (fp : PDict) (recommendations : PVal) : Except String PDict :=
  match pyInOp "ffmpeg_options" recommendations with
  | .error e => .error e
  | .ok false => .ok fp
  | .ok true =>
      match pyItemE recommendations "ffmpeg_options" with
      | .error e => .error e
      | .ok (.list opts) =>
          (match PDict.getE fp "parameters" with
           | .error e => .error e
           | .ok ps =>
               match pyInOp "ffmpeg_options" ps with
               | .error e => .error e
               | .ok hasK =>
                   match (if hasK then .ok fp
                          else setPath2 fp "parameters" "ffmpeg_options" (.list [])) with
                   | .error e => .error e
                   | .ok fp' =>
                       match PDict.getE fp' "parameters" with
                       | .error e => .error e
                       | .ok ps' =>
                           match pyItemE ps' "ffmpeg_options" with
                           | .error e => .error e
                           | .ok (.list cs) =>
                               setPath2 fp' "parameters" "ffmpeg_options" (.list (cs ++ opts))
                           | .ok _ => .error "AttributeError: extend")
      | .ok _ => .ok fp

/-- The body of `_apply_ai_recommendations` after the recommendations have
been extracted: early return when falsy, then the three blocks in source
order. -/
def aiApplyAll (format_params : PDict) (recommendations : PVal) : Except String PDict :=
  if pyTruthy recommendations = false then
    .ok format_params
  else
    match aiApplyCodecParams format_params recommendations with
    | .error e => .error e
    | .ok fp1 =>
        match aiApplyBitrate fp1 recommendations with
        | .error e => .error e
        | .ok fp2 => aiApplyOptions fp2 recommendations

/-- `FormatNormalizer._apply_ai_recommendations` (lines 280-326):
`ai_analysis.get("encoding_recommendations", {})` followed by the block
sequence above. -/
def apply_ai_recommendations (format_params : PDict) (ai_analysis : PDict) :
    Except String PDict :=
  aiApplyAll format_params (PDict.getD ai_analysis "encoding_recommendations" (.dict []))

end FormatNorm

/-! ## src/format_normalizer/normalizer.py — command builder -/

namespace FormatNorm

/-- The video branch of `FormatNormalizer._convert_media` (lines 347-394):
guarded by the source having a video stream AND the spec having a video
section; codec mapping followed by the per-key flag loop. -/
def videoSection (format_params : PDict) (has_video : Bool) : Except String (List PVal) := do
  if has_video then do
    let ps ← PDict.getE format_params "parameters"
    let hasV ← pyInOp "video" ps
    if hasV then do
      let video_params ← pyItemE ps "video"
      let codec ← PDict.getE format_params "codec"
      let codecFlags : List PVal :=
        if codec = .str "h264" then [.str "-c:v", .str "libx264"]
        else if codec = .str "h265" ∨ codec = .str "hevc" then [.str "-c:v", .str "libx265"]
        else if codec = .str "prores" then [.str "-c:v", .str "prores_ks"]
        else if codec = .str "av1" then [.str "-c:v", .str "libaom-av1"]
        else if codec = .str "vp9" then [.str "-c:v", .str "libvpx-vp9"]
        else [.str "-c:v", codec]
      let vd ← (match video_params with
                | .dict vd => Except.ok vd
                | _ => Except.error "AttributeError: items")
      let rest ← vd.foldlM (fun acc kv => do
          let (key, value) := kv
          if value = PVal.none then pure acc
          else if key = "crf" then pure (acc ++ [PVal.str "-crf", PVal.str (pyStr value)])
          else if key = "preset" then pure (acc ++ [PVal.str "-preset", PVal.str (pyStr value)])
          else if key = "profile" then pure (acc ++ [PVal.str "-profile:v", PVal.str (pyStr value)])
          else if key = "level" then
            if codec = .str "h264" ∨ codec = .str "libx264" ∨ codec = .str "h265" ∨ codec = .str "libx265" then
              pure (acc ++ [PVal.str "-level", PVal.str (pyStr value)])
            else pure acc
          else if key = "pix_fmt" then pure (acc ++ [PVal.str "-pix_fmt", PVal.str (pyStr value)])
          else if key = "maxrate" then pure (acc ++ [PVal.str "-maxrate", PVal.str (pyStr value)])
          else if key = "minrate" then pure (acc ++ [PVal.str "-minrate", PVal.str (pyStr value)])
          else if key = "bufsize" then pure (acc ++ [PVal.str "-bufsize", PVal.str (pyStr value)])
          else if key = "qscale" then pure (acc ++ [PVal.str "-qscale:v", PVal.str (pyStr value)])
          else if key = "bitrate" then pure (acc ++ [PVal.str "-b:v", PVal.str (pyStr value)])
          else if key = "movflags" then do
            let f ← PDict.getE format_params "format"
            if f = .str "mp4" ∨ f = .str "mov" then
              pure (acc ++ [PVal.str "-movflags", PVal.str (pyStr value)])
            else pure acc
          else pure acc) []
      pure (codecFlags ++ rest)
    else pure []
  else pure []

/-- The audio branch of `_convert_media` (lines 396-413), analogously
guarded; codec flag first, then bitrate, sample rate and channels. -/
def audioSection (format_params : PDict) (has_audio : Bool) : Except String (List PVal) := do
  if has_audio then do
    let ps ← PDict.getE format_params "parameters"
    let hasA ← pyInOp "audio" ps
    if hasA then do
      let audio_params ← pyItemE ps "audio"
      let hasC ← pyInOp "codec" audio_params
      let cFlags ←
        if hasC then do
          let c ← pyItemE audio_params "codec"
          pure [PVal.str "-c:a", c]
        else pure []
      let ad ← (match audio_params with
                | .dict d => Except.ok d
                | _ => Except.error "AttributeError: items")
      let rest := ad.foldl (fun acc kv =>
          let (key, value) := kv
          if value ≠ PVal.none ∧ key ≠ "codec" then
            if key = "bitrate" then acc ++ [PVal.str "-b:a", PVal.str (pyStr value)]
            else if key = "sample_rate" then acc ++ [PVal.str "-ar", PVal.str (pyStr value)]
            else if key = "channels" then acc ++ [PVal.str "-ac", PVal.str (pyStr value)]
            else acc
          else acc) []
      pure (cFlags ++ rest)
    else pure []
  else pure []

/-- The custom-options block of `_convert_media` (lines 415-418): each
entry of `parameters["ffmpeg_options"]` is appended as `str(option)`. -/
def extraSection (format_params : PDict) : Except String (List PVal) := do
  let ps ← PDict.getE format_params "parameters"
  let hasFO ← pyInOp "ffmpeg_options" ps
  if hasFO then do
    let fo ← pyItemE ps "ffmpeg_options"
    match fo with
    | .list opts => pure (opts.map (fun o => PVal.str (pyStr o)))
    | .str s => pure (s.data.map (fun c => PVal.str (String.singleton c)))
    | .dict d => pure (d.map (fun kv => PVal.str kv.1))
    | _ => Except.error "TypeError: not iterable"
  else pure []

/-- The container-forcing block of `_convert_media` (lines 420-422):
`-f <format>` whenever the format value is truthy. -/
def fmtSection (format_params : PDict) : Except String (List PVal) := do
  let f ← PDict.getE format_params "format"
  if pyTruthy f then pure [PVal.str "-f", f] else pure []

/-- The FFmpeg-command construction of `FormatNormalizer._convert_media`
(lines 344-425): base invocation, video branch, audio branch, custom
options, container flag, output path.  The subprocess launch that follows
in the source is an external effect and not part of this pure function. -/
def convert_media_cmd (source_path output_path : String) (format_params : PDict)
    (source_metadata : PDict) : Except String (List PVal) := do
  let has_video ← anyStreamTyped source_metadata "codec_type" "video"
  let vf ← videoSection format_params has_video
  let has_audio ← anyStreamTyped source_metadata "codec_type" "audio"
  let af ← audioSection format_params has_audio
  let ef ← extraSection format_params
  let ff ← fmtSection format_params
  pure ([PVal.str "ffmpeg", PVal.str "-y", PVal.str "-i", PVal.str source_path]
        ++ vf ++ af ++ ef ++ ff ++ [PVal.str output_path])

end FormatNorm

/-! ## src/format_normalizer/normalizer.py — output validator -/

/-- A validation record: `passed` flag plus ordered issue list. -/
structure Validation where
  passed : Bool
  issues : List String
deriving DecidableEq, Repr

/-- The monad of one validation pass: state is the `Validation` record being
mutated, errors are Python exceptions (whose state at raise time survives,
exactly as the mutated dict does in the source). -/
abbrev VCheck := EStateM String Validation

/-- `validation["passed"] = False` followed by an `issues.append`. -/
def vFailWith (msg : String) : VCheck Unit :=
  EStateM.modifyGet (fun v => ((), ⟨false, v.issues ++ [msg]⟩))

/-- `issues.append` alone (non-fatal finding). -/
def vAppend (msg : String) : VCheck Unit :=
  EStateM.modifyGet (fun v => ((), ⟨v.passed, v.issues ++ [msg]⟩))

/-- Run an exception-throwing sub-expression inside a check. -/
def liftE : Except String α → VCheck α
  | .ok a => pure a
  | .error e => throw e

namespace FormatNorm

/-- Container-format check of `_validate_output` (lines 476-482). -/
def checkFormat (out tgt : PDict) : VCheck Unit := do
  let ofv ← liftE (pyGetAttrD (PDict.getD out "format" (.dict [])) "format_name" (.str ""))
  let output_format ← liftE (pyLowerE ofv)
  let expected_format ← liftE (pyLowerE (PDict.getD tgt "format" (.str "")))
  if !expected_format.isEmpty ∧ output_format ≠ expected_format then
    vFailWith ("Expected format " ++ expected_format ++ ", got " ++ output_format)

/-- Video-codec check of `_validate_output` (lines 484-498): only the two
alias families h264 and h265 are compared. -/
def checkVideoCodec (out tgt : PDict) (has_video : Bool) : VCheck Unit := do
  if has_video then do
    let vs ← liftE (firstStreamTyped out "codec_type" "video")
    match vs with
    | some vsd => do
        let oc ← liftE (pyLowerE (PDict.getD vsd "codec_name" (.str "")))
        let ec ← liftE (pyLowerE (PDict.getD tgt "codec" (.str "")))
        if ec = "h264" ∧ oc ∉ ["h264", "libx264"] then
          vFailWith ("Expected video codec h264, got " ++ oc)
        else if ec = "h265" ∧ oc ∉ ["h265", "hevc", "libx265"] then
          vFailWith ("Expected video codec h265/hevc, got " ++ oc)
    | Option.none => pure ()

/-- Audio-codec check of `_validate_output` (lines 500-512), with the
aac/aac_lc alias carve-out.  Note the unguarded `target_format["parameters"]`
subscript. -/
def checkAudioCodec (out tgt : PDict) (has_audio : Bool) : VCheck Unit := do
  if has_audio then do
    let ps ← liftE (PDict.getE tgt "parameters")
    let hasA ← liftE (pyInOp "audio" ps)
    if hasA then do
      let as0 ← liftE (firstStreamTyped out "codec_type" "audio")
      match as0 with
      | some asd => do
          let oc ← liftE (pyLowerE (PDict.getD asd "codec_name" (.str "")))
          let av ← liftE (pyItemE ps "audio")
          let ecv ← liftE (pyGetAttrD av "codec" (.str ""))
          let ec ← liftE (pyLowerE ecv)
          if !ec.isEmpty ∧ oc ≠ ec then
            if ¬(ec = "aac" ∧ oc ∈ ["aac", "aac_lc"]) then
              vFailWith ("Expected audio codec " ++ ec ++ ", got " ++ oc)
      | Option.none => pure ()

/-- Resolution-reduction check of `_validate_output` (lines 514-536);
issue-only, never flips `passed`. -/
def checkQuality (src out : PDict) (has_video : Bool) : VCheck Unit := do
  if has_video then do
    let sv ← liftE (firstStreamTyped src "codec_type" "video")
    let ov ← liftE (firstStreamTyped out "codec_type" "video")
    match sv, ov with
    | some svd, some ovd => do
        let sw ← liftE (pyToInt (PDict.getD svd "width" (.int 0)))
        let sh ← liftE (pyToInt (PDict.getD svd "height" (.int 0)))
        let ow ← liftE (pyToInt (PDict.getD ovd "width" (.int 0)))
        let oh ← liftE (pyToInt (PDict.getD ovd "height" (.int 0)))
        if sw > 0 ∧ sh > 0 then
          let red : PyFloat :=
            (100 : PyFloat) - (PyFloat.ofInt (ow * oh) / PyFloat.ofInt (sw * sh) * 100)
          if red > 10 then
            vAppend ("Resolution reduced by " ++ fmtFix 1 red ++ "% ("
              ++ toString sw ++ "x" ++ toString sh ++ " -> "
              ++ toString ow ++ "x" ++ toString oh ++ ")")
    | _, _ => pure ()

/-- Size check of `_validate_output` (lines 538-546): zero output size is
fatal, a sub-1% output size is issue-only. -/
def checkSize (src out : PDict) : VCheck Unit := do
  let source_size ← liftE (pyToInt =<< pyGetAttrD (PDict.getD src "format" (.dict [])) "size" (.int 0))
  let output_size ← liftE (pyToInt =<< pyGetAttrD (PDict.getD out "format" (.dict [])) "size" (.int 0))
  if output_size ≤ 0 then
    vFailWith "Output file has zero size"
  else if source_size > 0 ∧ PyFloat.ofInt output_size <
      PyFloat.ofInt source_size * ((1 : PyFloat) / 100) then
    vAppend ("Output file is suspiciously small (" ++ toString output_size ++ " bytes, "
      ++ fmtFix 1 (PyFloat.ofInt output_size / PyFloat.ofInt source_size * 100) ++ "% of source)")

/-- Duration check of `_validate_output` (lines 548-558); issue-only. -/
def checkDuration (src out : PDict) : VCheck Unit := do
  let sd ← liftE (pyToFloat =<< pyGetAttrD (PDict.getD src "format" (.dict [])) "duration" (.int 0))
  let od ← liftE (pyToFloat =<< pyGetAttrD (PDict.getD out "format" (.dict [])) "duration" (.int 0))
  if sd > 0 ∧ PyFloat.pabs (od - sd) > 1 then
    let pct := PyFloat.pabs (od - sd) / sd * 100
    if pct > 1 then
      vAppend ("Duration changed by " ++ fmtFix 1 pct ++ "% ("
        ++ fmtFix 2 sd ++ "s -> " ++ fmtFix 2 od ++ "s)")

/-- The try-block body of `_validate_output` (lines 475-558), in source
order: format, video codec, audio codec, resolution, size, duration. -/
def validateChecks (src out tgt : PDict) : VCheck Unit := do
  checkFormat out tgt
  let has_video ← liftE (anyStreamTyped out "codec_type" "video")
  checkVideoCodec out tgt has_video
  let has_audio ← liftE (anyStreamTyped out "codec_type" "audio")
  checkAudioCodec out tgt has_audio
  checkQuality src out has_video
  checkSize src out
  checkDuration src out

/-- `FormatNormalizer._validate_output` (lines 456-565): the checks above run
over an initially-passing record; any exception is caught, flips `passed`
to false and appends a "Validation error" issue after whatever issues had
already accumulated. -/
def validate_output (src out tgt : PDict) : Validation :=
  match validateChecks src out tgt ⟨true, []⟩ with
  | .ok _ v => v
  | .error e v => ⟨false, v.issues ++ ["Validation error: " ++ e]⟩

end FormatNorm

/-! ## src/formatnormalizer/normalizer.py — frame-rate parsing -/

namespace DriveNorm

/-- One attempt of `FormatNormalizer._calculate_frame_rate`: split a
fraction field on "/" and return `num/den` when there are exactly two parts
and the denominator parses to a positive int; `none` when the shape or sign
test fails; an exception when `int()` rejects a part that is reached. -/
def frameRateTry (v : PVal) : Except String (Option PyFloat) := do
  let s ← (match v with
           | .str s => Except.ok s
           | _ => Except.error "AttributeError: split")
  match pySplitChar '/' s with
  | [p0, p1] => do
      let d ← pyIntStr p1
      if d > 0 then do
        let n ← pyIntStr p0
        pure (some (PyFloat.ofInt n / PyFloat.ofInt d))
      else pure Option.none
  | _ => pure Option.none

/-- `FormatNormalizer._calculate_frame_rate` from
src/formatnormalizer/normalizer.py (lines 379-391): try `r_frame_rate`,
then `avg_frame_rate`, else `0.0`. -/
def calculate_frame_rate (stream : PDict) : Except String PyFloat := do
  let r1 ←
    match PDict.find? stream "r_frame_rate" with
    | some v => frameRateTry v
    | Option.none => pure Option.none
  match r1 with
  | some q => pure q
  | Option.none => do
      let r2 ←
        match PDict.find? stream "avg_frame_rate" with
        | some v => frameRateTry v
        | Option.none => pure Option.none
      match r2 with
      | some q => pure q
      | Option.none => pure 0

end DriveNorm

/-! ## src/src/normalizer.py — presets, command builder, validator, pipeline -/

/-- Assoc lookup with Python-object keys. -/
def pvFind? (m : List (PVal × PVal)) (k : PVal) : Option PVal :=
  match m with
  | [] => Option.none
  | (k0, v0) :: rest => if k0 = k then some v0 else pvFind? rest k

/-- Assoc set with Python-object keys (replace in place or append). -/
def pvSetK (m : List (PVal × PVal)) (k : PVal) (v : PVal) : List (PVal × PVal) :=
  match m with
  | [] => [(k, v)]
  | (k0, v0) :: rest => if k0 = k then (k0, v) :: rest else (k0, v0) :: pvSetK rest k v

/-- First-occurrence deduplication of a key list. -/
def dedupPV (xs : List PVal) : List PVal :=
  xs.foldl (fun acc x => if acc.contains x then acc else acc ++ [x]) []

namespace SrcNorm

/-- The preset table installed in `FormatNormalizer.__init__`
(src/src/normalizer.py lines 58-79). -/
def presets : List (String × PDict) :=
  [("web", [("video", .dict [("codec", .str "h264"), ("crf", .int 23), ("preset", .str "medium")]),
            ("audio", .dict [("codec", .str "aac"), ("bitrate", .str "128k")])]),
   ("social", [("video", .dict [("codec", .str "h264"), ("crf", .int 20), ("preset", .str "faster")]),
               ("audio", .dict [("codec", .str "aac"), ("bitrate", .str "192k")])]),
   ("broadcast", [("video", .dict [("codec", .str "prores"), ("profile", .str "standard")]),
                  ("audio", .dict [("codec", .str "pcm_s24le")])]),
   ("hq", [("video", .dict [("codec", .str "h264"), ("crf", .int 18), ("preset", .str "slow")]),
           ("audio", .dict [("codec", .str "aac"), ("bitrate", .str "256k")])]),
   ("archive", [("video", .dict [("codec", .str "ffv1"), ("level", .int 3)]),
                ("audio", .dict [("codec", .str "flac")])])]

/-- The ProRes profile-name to numeric-index map of
`_build_ffmpeg_command` (lines 428-432), with default "2". -/
def proresProfileMap (profile : PVal) : Except String String :=
  match profile with
  | .str s =>
      .ok ((([("proxy", "0"), ("lt", "1"), ("standard", "2"),
              ("hq", "3"), ("4444", "4"), ("4444xq", "5")] :
              List (String × String)).lookup s).getD "2")
  | .list _ => .error "TypeError: unhashable"
  | .dict _ => .error "TypeError: unhashable"
  | _ => .ok "2"

/-- The video block of `FormatNormalizer._build_ffmpeg_command`
(src/src/normalizer.py lines 411-442): codec flag and per-codec
rate-control arguments, including the forced zero bitrate for vp9/av1. -/
def videoSectionSS (enc : PDict) : Except String (List PVal) := do
  let vp := PDict.getD enc "video" (.dict [])
  if pyTruthy vp then
    match vp with
    | .dict vd => do
        let vcodec := PDict.getD vd "codec" .none
        let c1 := if pyTruthy vcodec then [PVal.str "-c:v", vcodec] else []
        let c2 ←
          if vcodec = .str "h264" ∨ vcodec = .str "h265" then do
            let crf := PDict.getD vd "crf" (.int 23)
            let preset := PDict.getD vd "preset" (.str "medium")
            pure [PVal.str "-crf", PVal.str (pyStr crf), PVal.str "-preset", preset]
          else if vcodec = .str "prores" then do
            let profile := PDict.getD vd "profile" (.str "standard")
            let pv ← proresProfileMap profile
            pure [PVal.str "-profile:v", PVal.str pv]
          else if vcodec = .str "vp9" then do
            let crf := PDict.getD vd "crf" (.int 30)
            pure [PVal.str "-crf", PVal.str (pyStr crf), PVal.str "-b:v", PVal.str "0"]
          else if vcodec = .str "av1" then do
            let crf := PDict.getD vd "crf" (.int 30)
            pure [PVal.str "-crf", PVal.str (pyStr crf), PVal.str "-b:v", PVal.str "0"]
          else pure []
        pure (c1 ++ c2)
    | _ => Except.error "AttributeError: get"
  else pure []

/-- The audio block of `_build_ffmpeg_command` (lines 444-454). -/
def audioSectionSS (enc : PDict) : Except String (List PVal) := do
  let ap := PDict.getD enc "audio" (.dict [])
  if pyTruthy ap then
    match ap with
    | .dict ad => do
        let acodec := PDict.getD ad "codec" .none
        let c1 := if pyTruthy acodec then [PVal.str "-c:a", acodec] else []
        let c2 :=
          if acodec = .str "aac" ∨ acodec = .str "mp3" ∨ acodec = .str "opus" then
            [PVal.str "-b:a", PDict.getD ad "bitrate" (.str "128k")]
          else []
        pure (c1 ++ c2)
    | _ => Except.error "AttributeError: get"
  else pure []

/-- `FormatNormalizer._build_ffmpeg_command` (lines 387-463): base
invocation, optional hardware acceleration, video block, audio block,
optional metadata mapping, output path.  The builder never consults the
source descriptor. -/
def build_ffmpeg_command (input_path output_path : String) (enc : PDict)
    (hwaccel preserve_metadata : Bool) : Except String (List PVal) := do
  let g := if hwaccel then [PVal.str "-hwaccel", PVal.str "auto"] else []
  let vf ← videoSectionSS enc
  let af ← audioSectionSS enc
  let mf := if preserve_metadata then [PVal.str "-map_metadata", PVal.str "0"] else []
  pure ([PVal.str "ffmpeg", PVal.str "-y", PVal.str "-i", PVal.str input_path]
        ++ g ++ vf ++ af ++ mf ++ [PVal.str output_path])

/-- First stream of the given `type` in a processed info dict, returning its
`codec` value (default `None`), as the mismatch loops of `_validate_output`
do (lines 583-598). -/
def firstCodecTyped (info : PDict) (t : String) : Except String PVal := do
  let fs ← firstStreamTyped info "type" t
  match fs with
  | some d => pure (PDict.getD d "codec" .none)
  | Option.none => pure .none

/-- `FormatNormalizer._validate_output` (src/src/normalizer.py lines
548-606): existence and emptiness short-circuit with a single issue;
otherwise duration validity and video/audio codec compliance accumulate
issues and `passed` is their emptiness. -/
def validate_output (fileExists : Bool) (fileSize : Nat) (output_info enc : PDict) :
    Except String Validation := do
  if fileExists = false then
    pure ⟨false, ["Output file does not exist"]⟩
  else if fileSize = 0 then
    pure ⟨false, ["Output file is empty"]⟩
  else do
    let durBad ← pyLeZero (PDict.getD output_info "duration" (.int 0))
    let i1 : List String := if durBad then ["Output file has invalid duration"] else []
    let evc ← pyGetAttr (PDict.getD enc "video" (.dict [])) "codec"
    let avc ← firstCodecTyped output_info "video"
    let i2 :=
      if pyTruthy evc ∧ pyTruthy avc ∧ evc ≠ avc then
        i1 ++ ["Video codec mismatch: expected " ++ pyStr evc ++ ", got " ++ pyStr avc]
      else i1
    let eac ← pyGetAttr (PDict.getD enc "audio" (.dict [])) "codec"
    let aac2 ← firstCodecTyped output_info "audio"
    let i3 :=
      if pyTruthy eac ∧ pyTruthy aac2 ∧ eac ≠ aac2 then
        i2 ++ ["Audio codec mismatch: expected " ++ pyStr eac ++ ", got " ++ pyStr aac2]
      else i2
    pure ⟨i3.isEmpty, i3⟩

end SrcNorm

namespace SrcNorm

/-- `FormatNormalizer._get_primary_codec` (lines 465-470). -/
def get_primary_codec (info : PDict) : Except String PVal := do
  let fs ← firstStreamTyped info "type" "video"
  match fs with
  | some d => pure (PDict.getD d "codec" (.str ""))
  | Option.none => pure (.str "")

/-- `FormatNormalizer._get_resolution` (lines 472-480). -/
def get_resolution (info : PDict) : Except String PDict := do
  let fs ← firstStreamTyped info "type" "video"
  match fs with
  | some d => pure [("width", PDict.getD d "width" (.int 0)),
                    ("height", PDict.getD d "height" (.int 0))]
  | Option.none => pure [("width", .int 0), ("height", .int 0)]

/-- The per-type codec maps built by `_get_transformations` (lines 508-521):
keyed by the stream `type` value, later streams of the same type winning. -/
def collectCodecs (info : PDict) : Except String (List (PVal × PVal)) :=
  match PDict.getD info "streams" (.list []) with
  | .list xs =>
      xs.foldlM (fun acc s =>
        match s with
        | .dict d =>
            let st := PDict.getD d "type" .none
            let c := PDict.getD d "codec" .none
            if pyTruthy st ∧ pyTruthy c then Except.ok (pvSetK acc st c)
            else Except.ok acc
        | _ => Except.error "AttributeError: stream is not a dict") []
  | _ => Except.error "TypeError: streams is not a list"

/-- The leading container name with an empty-string default:
`info.get("format", "").split(",")[0]`, as written at lines 498-499 inside
`_get_transformations` (the line 273 variant has no default; see
`outputFormatFallback`). -/
def formatHead (info : PDict) : Except String String :=
  match PDict.getD info "format" (.str "") with
  | .str s => .ok ((pySplitChar ',' s).headD "")
  | _ => .error "AttributeError: split"

/-- `FormatNormalizer._get_transformations` (lines 482-546): format change,
per-stream-type codec changes, resolution change.  CPython iterates the
union of stream types as a hash-ordered set; this embedding uses
first-occurrence order, on which no claim depends. -/
def get_transformations (src out : PDict) : Except String (List PDict) := do
  let sf0 ← formatHead src
  let of0 ← formatHead out
  let t1 : List PDict :=
    if sf0 ≠ of0 then
      [[("type", .str "format_conversion"), ("from", .str sf0), ("to", .str of0)]]
    else []
  let sc ← collectCodecs src
  let oc ← collectCodecs out
  let keys := dedupPV (sc.map Prod.fst ++ oc.map Prod.fst)
  let t2 := keys.foldl (fun acc k =>
      let s0 := (pvFind? sc k).getD .none
      let o0 := (pvFind? oc k).getD .none
      if s0 ≠ o0 then
        acc ++ [[("type", .str (pyStr k ++ "_codec_conversion")),
                 ("from", s0), ("to", o0)]]
      else acc) []
  let sres ← get_resolution src
  let ores ← get_resolution out
  let t3 : List PDict :=
    if PDict.getD sres "width" .none ≠ PDict.getD ores "width" .none ∨
       PDict.getD sres "height" .none ≠ PDict.getD ores "height" .none then
      [[("type", .str "resolution_change"),
        ("from", .str (pyStr (PDict.getD sres "width" .none) ++ "x"
                       ++ pyStr (PDict.getD sres "height" .none))),
        ("to", .str (pyStr (PDict.getD ores "width" .none) ++ "x"
                     ++ pyStr (PDict.getD ores "height" .none)))]]
    else []
  pure (t1 ++ t2 ++ t3)

/-- `FormatNormalizer._analyze_media_with_gemini` (lines 120-153): empty
dict without an API key, otherwise the fixed placeholder recommendation
built from the probed info. -/
def analyze_media_with_gemini (hasApiKey : Bool) (media_info : PDict) : PDict :=
  if hasApiKey = false then []
  else
    [("recommended_codec", PDict.getD media_info "video_codec" (.str "h264")),
     ("quality_optimized_crf",
        .int (if pyTruthy (PDict.getD media_info "has_motion" (.bool true)) then 22 else 24)),
     ("encoding_speed", .str "medium"),
     ("notes", .str "AI optimization would provide specific recommendations based on content analysis")]

/-- The codec-override loop of `normalize` (lines 281-284): rewrite the
`codec` entry of every section that has one. -/
def overrideCodec (enc : PDict) (codec : String) : Except String PDict :=
  (enc.map Prod.fst).foldlM (fun acc k => do
    let v ← pyItemE (.dict acc) k
    let hasC ← pyInOp "codec" v
    if hasC then
      match v with
      | .dict vd => pure (PDict.setK acc k (.dict (PDict.setK vd "codec" (.str codec))))
      | _ => Except.error "TypeError: item assignment"
    else pure acc) enc

/-- Steps 3 of `normalize` (lines 275-291): preset lookup (silently empty
for a missing or unknown preset), explicit codec override, then the AI
recommendation overlay on an existing video section. -/
def resolveParamsSS (preset codec : Option String) (ai_rec : PDict) :
    Except String PDict := do
  let enc0 : PDict :=
    match preset with
    | some p => if p ≠ "" then (presets.lookup p).getD [] else []
    | Option.none => []
  let enc1 ←
    match codec with
    | some c => if c ≠ "" then overrideCodec enc0 c else pure enc0
    | Option.none => pure enc0
  if pyTruthy (.dict ai_rec) ∧ PDict.hasKey ai_rec "recommended_codec" then
    if PDict.hasKey enc1 "video" then do
      let rc ← PDict.getE ai_rec "recommended_codec"
      let e2 ← setPath2 enc1 "video" "codec" rc
      if PDict.hasKey ai_rec "quality_optimized_crf" then do
        let qc ← PDict.getE ai_rec "quality_optimized_crf"
        setPath2 e2 "video" "crf" qc
      else pure e2
    else pure enc1
  else pure enc1

/-- `os.path.basename` for POSIX paths. -/
def pyBasename (p : String) : String := ((pySplitChar '/' p).getLastD "")

/-- The root part of `os.path.splitext` (leading dots of the basename do
not start an extension). -/
def pySplitextRoot (name : String) : String :=
  let lead := name.data.takeWhile (fun c => c = '.')
  let rest := name.data.dropWhile (fun c => c = '.')
  if rest.contains '.' then
    String.mk (lead ++ ((rest.reverse.dropWhile (fun c => c ≠ '.')).drop 1).reverse)
  else name

/-- The fallback of the output-format determination (line 273):
`source_info.get("format").split(",")[0]` — unlike line 498 there is NO
default, so a source-info dict without a "format" key (e.g. the
`{"error": ...}` dict `_get_media_info` returns on probe failure) yields
`None`, whose `.split` raises `AttributeError`. -/
def outputFormatFallback (info : PDict) : Except String String :=
  match PDict.getD info "format" .none with
  | .str s => .ok ((pySplitChar ',' s).headD "")
  | _ => .error "AttributeError: split"

/-- The output-format determination of `normalize` (line 273):
`target_format or source_info.get("format").split(",")[0]`, raising on a
missing "format" key when `target_format` is falsy. -/
def outputFormatStage (target_format : Option String) (info : PDict) : Except String String :=
  match target_format with
  | some t => if t ≠ "" then .ok t else outputFormatFallback info
  | Option.none => outputFormatFallback info

/-- The output-path determination of `normalize` (lines 294-300): the
caller-supplied path when truthy, otherwise
`<output_dir>/<source base name>.<output format>`. -/
def outputPathStage (output_path : Option String) (source ofmt : String) : String :=
  match output_path with
  | some p =>
      if p ≠ "" then p
      else "output/" ++ pySplitextRoot (pyBasename source) ++ "." ++ ofmt
  | Option.none => "output/" ++ pySplitextRoot (pyBasename source) ++ "." ++ ofmt

/-- `performance["compressionRatio"]` of `normalize` step 9 (line 348). -/
def compressRateSS (src out : PDict) : Except String PyFloat := do
  let m ← pyMaxInt (PDict.getD out "size" (.int 1)) 1
  match PDict.getD src "size" (.int 1) with
  | .int n => pure (PyFloat.ofInt n / PyFloat.ofInt m)
  | .bool b => pure (PyFloat.ofInt (if b then 1 else 0) / PyFloat.ofInt m)
  | _ => Except.error "TypeError: division"

/-- External effects of one `normalize` run: probe results, the encoder
exit, the filesystem answers and the per-run identifiers, all supplied by
the environment. -/
structure EnvSS where
  sourceInfo : PDict
  aiMediaInfo : PDict
  geminiKey : Bool
  mkdirError : Option String
  returncode : Int
  stderrText : String
  processingTime : PyFloat
  outputInfo : PDict
  outputExists : Bool
  outputSize : Nat
  hwaccel : Bool
  jobId : String
deriving Repr

/-- The three option flags read at the top of `normalize` (lines 249-252),
after Python truthiness is applied to `options.get`. -/
structure OptionsSS where
  preserveMetadata : Bool
  enableAI : Bool
  validateOutput : Bool
deriving Repr

/-- The success record returned by `normalize` step 10 (lines 352-370). -/
structure SuccessSS where
  jobId : String
  uri : String
  fmt : PVal
  codec : PVal
  duration : PVal
  fileSize : PVal
  resolution : PDict
  original : PDict
  technical : PDict
  transformations : List PDict
  processingTime : PyFloat
  compressRate : PyFloat
  validation : Validation
deriving DecidableEq, Repr

/-- The two shapes of `normalize` results: the `success=False` error record
and the `success=True` record. -/
inductive ResultSS where
  | failed (error : String) (jobId : String)
  | completed (r : SuccessSS)
deriving DecidableEq, Repr

/-- The try-block body of `FormatNormalizer.normalize`
(src/src/normalizer.py lines 261-370), with external effects read from the
environment: probe, optional AI analysis, output-format and parameter
resolution, output-path determination, command build, encoder run (non-zero
exit returns the failure record), output probe, optional validation,
performance metrics and result assembly. -/
def normalizeInner (env : EnvSS) (source : String)
    (target_format codec preset output_path : Option String) (opts : OptionsSS) :
    Except String ResultSS := do
  let source_info := env.sourceInfo
  let ai_recommendations :=
    if opts.enableAI then analyze_media_with_gemini env.geminiKey env.aiMediaInfo else []
  let output_format ← outputFormatStage target_format source_info
  let enc ← resolveParamsSS preset codec ai_recommendations
  let op := outputPathStage output_path source output_format
  match env.mkdirError with
  | some e => throw e
  | Option.none => pure ()
  let _cmd ← build_ffmpeg_command source op enc env.hwaccel opts.preserveMetadata
  if env.returncode ≠ 0 then
    pure (ResultSS.failed (pyStripStr env.stderrText) env.jobId)
  else do
    let output_info := env.outputInfo
    let validation ←
      if opts.validateOutput then
        validate_output env.outputExists env.outputSize output_info enc
      else pure ⟨true, []⟩
    let cr ← compressRateSS source_info output_info
    let pcodec ← get_primary_codec output_info
    let res ← get_resolution output_info
    let trans ← get_transformations source_info output_info
    pure (ResultSS.completed {
      jobId := env.jobId,
      uri := op,
      fmt := PDict.getD output_info "format" (.str ""),
      codec := pcodec,
      duration := PDict.getD output_info "duration" (.int 0),
      fileSize := PDict.getD output_info "size" (.int 0),
      resolution := res,
      original := if opts.preserveMetadata then source_info else [],
      technical := output_info,
      transformations := trans,
      processingTime := env.processingTime,
      compressRate := cr,
      validation := validation })

/-- `FormatNormalizer.normalize` (lines 227-378): the try-block above with
the catch-all handler that converts any exception into the `success=False`
record carrying the error text. -/
def normalize (env : EnvSS) (source : String)
    (target_format codec preset output_path : Option String) (opts : OptionsSS) : ResultSS :=
  match normalizeInner env source target_format codec preset output_path opts with
  | .ok r => r
  | .error e => ResultSS.failed e env.jobId

end SrcNorm

/-! ## Statement helpers and concrete scenario data -/

/-- The value of `fp["parameters"][sec][key]`, if all levels are present
dicts. -/
def paramField (fp : PDict) (sec key : String) : Option PVal :=
  match PDict.find? fp "parameters" with
  | some (.dict d) =>
      match PDict.find? d sec with
      | some (.dict s) => PDict.find? s key
      | _ => Option.none
  | _ => Option.none

/-- Whether the `parameters` mapping of a resolved spec has a top-level
section named `k`. -/
def sectionHasKey (fp : PDict) (k : String) : Bool :=
  match PDict.find? fp "parameters" with
  | some (.dict d) => PDict.hasKey d k
  | _ => false

/-- C1: target override setting `video.crf` to 18. -/
def c1_target : PDict :=
  [("format", .str "mp4"), ("parameters", .dict [("video", .dict [("crf", .int 18)])])]

/-- C1: AI analysis carrying a CRF 22 bitrate strategy. -/
def c1_ai : PDict :=
  [("encoding_recommendations", .dict
    [("bitrate_strategy", .dict [("type", .str "CRF"), ("value", .int 22)])])]

/-- C1 counterexample: a resolved spec whose parameter sections are video
and audio only. -/
def c1ce_fp : PDict :=
  [("format", .str "mp4"), ("codec", .str "h264"), ("preset", .str "web"),
   ("parameters", .dict [("video", .dict [("crf", .int 23)]),
                         ("audio", .dict [("codec", .str "aac")])])]

/-- C1 counterexample: AI recommendations carrying only ffmpeg options. -/
def c1ce_ai : PDict :=
  [("encoding_recommendations", .dict
    [("ffmpeg_options", .list [.str "-tune", .str "film"])])]

/-- C1 counterexample: the resolver output, with the brand-new
`ffmpeg_options` top-level section appended. -/
def c1ce_fp2 : PDict :=
  [("format", .str "mp4"), ("codec", .str "h264"), ("preset", .str "web"),
   ("parameters", .dict [("video", .dict [("crf", .int 23)]),
                         ("audio", .dict [("codec", .str "aac")]),
                         ("ffmpeg_options", .list [.str "-tune", .str "film"])])]

/-- C2: a web/mp4 resolved spec before AI is applied. -/
def c2_fp : PDict :=
  [("format", .str "mp4"), ("codec", .str "h264"), ("preset", .str "web"),
   ("parameters", .dict [("video", .dict [("crf", .int 23), ("preset", .str "medium")]),
                         ("audio", .dict [("codec", .str "aac"), ("bitrate", .str "128k")])])]

/-- C2: CBR strategy at "5000k". -/
def c2_aiCBR : PDict :=
  [("encoding_recommendations", .dict
    [("bitrate_strategy", .dict [("type", .str "CBR"), ("value", .str "5000k")])])]

/-- C2: VBR strategy at "4000k". -/
def c2_aiVBR : PDict :=
  [("encoding_recommendations", .dict
    [("bitrate_strategy", .dict [("type", .str "VBR"), ("value", .str "4000k")])])]

/-- C2: an unrecognized strategy type. -/
def c2_aiUnknown : PDict :=
  [("encoding_recommendations", .dict
    [("bitrate_strategy", .dict [("type", .str "ABR"), ("value", .str "4000k")])])]

/-- C3 witness: an audio-only spec. -/
def c3w_fp : PDict :=
  [("format", .str "mp3"), ("codec", .str "mp3"), ("preset", .str "standard"),
   ("parameters", .dict [("audio", .dict [("codec", .str "mp3"), ("bitrate", .str "192k")])])]

/-- C3 witness: a source descriptor with a single video stream and no audio
stream. -/
def c3w_meta : PDict := [("streams", .list [.dict [("codec_type", .str "video")]])]

/-- C4 counterexample: a spec with custom ffmpeg options and a truthy
container format. -/
def c4ce_fp : PDict :=
  [("format", .str "mp4"), ("codec", .str "h264"), ("preset", .str "web"),
   ("parameters", .dict [("video", .dict [("crf", .int 23), ("preset", .str "medium")]),
                         ("ffmpeg_options", .list [.str "-tune", .str "film"])])]

/-- C4 counterexample: a source descriptor with one video stream. -/
def c4ce_meta : PDict := [("streams", .list [.dict [("codec_type", .str "video")]])]

/-- C4 counterexample: the built command, with the builder-generated
`-f mp4` pair after the caller-supplied `-tune film`. -/
def c4ce_cmd : List PVal :=
  [.str "ffmpeg", .str "-y", .str "-i", .str "in.mov", .str "-c:v", .str "libx264",
   .str "-crf", .str "23", .str "-preset", .str "medium", .str "-tune", .str "film",
   .str "-f", .str "mp4", .str "out.mp4"]

/-- C5 counterexample: the resolved web/webm spec (canonical codec vp9). -/
def c5ce_fp : PDict :=
  [("format", .str "webm"), ("codec", .str "vp9"), ("preset", .str "web"),
   ("parameters", .dict [("video", .dict [("crf", .int 28), ("preset", .str "medium"),
                                          ("movflags", .str "+faststart")]),
                         ("audio", .dict [("codec", .str "aac"), ("bitrate", .str "128k")])])]

/-- C5 counterexample: a source descriptor with video and audio streams. -/
def c5ce_meta : PDict :=
  [("streams", .list [.dict [("codec_type", .str "video")],
                      .dict [("codec_type", .str "audio")]])]

/-- C5 counterexample: the command built by the format_normalizer builder
for the vp9 spec — no `-b:v 0` pair anywhere. -/
def c5ce_cmd : List PVal :=
  [.str "ffmpeg", .str "-y", .str "-i", .str "in.mov", .str "-c:v", .str "libvpx-vp9",
   .str "-crf", .str "28", .str "-preset", .str "medium", .str "-c:a", .str "aac",
   .str "-b:a", .str "128k", .str "-f", .str "webm", .str "out.webm"]

/-- C5 witness: an encode-spec mapping whose video codec is vp9 and which
has no audio section. -/
def c5w_enc : PDict := [("video", .dict [("codec", .str "vp9"), ("crf", .int 31)])]

/-- C6: a source descriptor whose video stream matches the output
resolution. -/
def c6_src : PDict :=
  [("format", .dict [("size", .int 1000), ("duration", .int 10)]),
   ("streams", .list [.dict [("codec_type", .str "video"),
                             ("width", .int 100), ("height", .int 100)]])]

/-- C6: an mp4 output descriptor whose video codec name is the argument. -/
def c6_outV (oc : String) : PDict :=
  [("format", .dict [("format_name", .str "mp4"), ("size", .int 900), ("duration", .int 10)]),
   ("streams", .list [.dict [("codec_type", .str "video"), ("codec_name", .str oc),
                             ("width", .int 100), ("height", .int 100)]])]

/-- C6: a target spec requesting codec vp9. -/
def c6_tgtVp9 : PDict :=
  [("format", .str "mp4"), ("codec", .str "vp9"), ("parameters", .dict [])]

/-- C6: a target spec requesting codec h264. -/
def c6_tgtH264 : PDict :=
  [("format", .str "mp4"), ("codec", .str "h264"), ("parameters", .dict [])]

/-- C6: an mp4 output descriptor with an aac_lc audio stream. -/
def c6_outAac : PDict :=
  [("format", .dict [("format_name", .str "mp4"), ("size", .int 900), ("duration", .int 10)]),
   ("streams", .list [.dict [("codec_type", .str "audio"), ("codec_name", .str "aac_lc")]])]

/-- C6: a target spec requesting audio codec aac. -/
def c6_tgtAac : PDict :=
  [("format", .str "mp4"), ("parameters", .dict [("audio", .dict [("codec", .str "aac")])])]

/-- C7 counterexample: source metadata with size 1000 and duration 100. -/
def c7ce_src : PDict := [("format", .dict [("size", .int 1000), ("duration", .int 100)])]

/-- C7 counterexample: output metadata with zero size and duration 10. -/
def c7ce_out : PDict :=
  [("format", .dict [("format_name", .str "mp4"), ("size", .int 0), ("duration", .int 10)])]

/-- C7 counterexample: a matching target so the format check is quiet. -/
def c7ce_tgt : PDict := [("format", .str "mp4"), ("parameters", .dict [])]

/-- C8 witness: the external environment of one run — encoder exits zero,
the output file exists, the output video codec differs from the requested
h264 so validation fails. -/
def c8w_env : SrcNorm.EnvSS :=
  { sourceInfo := [("format", .str "avi"), ("duration", .int 5), ("size", .int 1000),
                   ("streams", .list [])],
    aiMediaInfo := [], geminiKey := false, mkdirError := Option.none,
    returncode := 0, stderrText := "", processingTime := 2,
    outputInfo := [("format", .str "mp4"), ("duration", .int 5), ("size", .int 500),
                   ("streams", .list [.dict [("type", .str "video"), ("codec", .str "mpeg4")]])],
    outputExists := true, outputSize := 500, hwaccel := true, jobId := "job1" }

/-- C8 witness: defaults with validation enabled. -/
def c8w_opts : SrcNorm.OptionsSS :=
  { preserveMetadata := true, enableAI := false, validateOutput := true }

/-- C8 witness: the resolved web-preset parameters. -/
def c8w_enc : PDict :=
  [("video", .dict [("codec", .str "h264"), ("crf", .int 23), ("preset", .str "medium")]),
   ("audio", .dict [("codec", .str "aac"), ("bitrate", .str "128k")])]

/-- C8 witness: the failing validation attached to the completed job. -/
def c8w_validation : Validation :=
  ⟨false, ["Video codec mismatch: expected h264, got mpeg4"]⟩

/-- C10 witness: output metadata with an audio stream and a mismatching
container name. -/
def c10w_out : PDict :=
  [("format", .dict [("format_name", .str "avi"), ("size", .int 10), ("duration", .int 1)]),
   ("streams", .list [.dict [("codec_type", .str "audio"), ("codec_name", .str "aac")]])]

/-- C10 witness: a target-format mapping missing the `parameters` key that
`_validate_output` subscripts unguarded. -/
def c10w_tgt : PDict := [("format", .str "mp4")]
/-! ## Dict lemmas -/

theorem PDict.find?_setK_self (d : PDict) (k : String) (v : PVal) :
    PDict.find? (PDict.setK d k v) k = some v := by
  induction d with
  | nil => simp [PDict.setK, PDict.find?]
  | cons kv rest ih =>
      obtain ⟨k0, v0⟩ := kv
      by_cases h : k0 = k
      · simp [PDict.setK, h, PDict.find?]
      · simp [PDict.setK, h, PDict.find?, ih]

theorem PDict.find?_setK_ne (d : PDict) (k k' : String) (v : PVal) (h : k' ≠ k) :
    PDict.find? (PDict.setK d k v) k' = PDict.find? d k' := by
  induction d with
  | nil =>
      have : ¬k = k' := fun hh => h hh.symm
      simp [PDict.setK, PDict.find?, this]
  | cons kv rest ih =>
      obtain ⟨k0, v0⟩ := kv
      by_cases h0 : k0 = k
      · subst h0
        have : ¬k0 = k' := fun hh => h hh.symm
        simp [PDict.setK, PDict.find?, this]
      · simp [PDict.setK, h0, PDict.find?, ih]

theorem PDict.hasKey_setK (d : PDict) (k k' : String) (v : PVal) :
    PDict.hasKey (PDict.setK d k v) k' = (PDict.hasKey d k' || decide (k' = k)) := by
  by_cases h : k' = k
  · subst h; simp [PDict.hasKey, PDict.find?_setK_self]
  · simp [PDict.hasKey, PDict.find?_setK_ne _ _ _ _ h, h]

theorem PDict.getE_ok {d : PDict} {k : String} {v : PVal}
    (h : PDict.getE d k = .ok v) : PDict.find? d k = some v := by
  unfold PDict.getE at h
  cases hf : PDict.find? d k with
  | none => rw [hf] at h; exact absurd h (by simp)
  | some w => rw [hf] at h; cases h; rfl

theorem pyItemE_dict_ok {d : PDict} {k : String} {v : PVal}
    (h : pyItemE (.dict d) k = .ok v) : PDict.find? d k = some v := by
  simp only [pyItemE] at h
  cases hf : PDict.find? d k with
  | none => rw [hf] at h; exact absurd h (by simp)
  | some w => rw [hf] at h; cases h; rfl

theorem except_bind_ok {α β : Type} {x : Except String α} {f : α → Except String β} {b : β}
    (h : x >>= f = .ok b) : ∃ a, x = .ok a ∧ f a = .ok b := by
  cases x with
  | error e => exact absurd h (by simp [Bind.bind, Except.bind, Pure.pure, Except.pure])
  | ok a => exact ⟨a, rfl, by simpa [Bind.bind, Except.bind, Pure.pure, Except.pure] using h⟩

/-! ## Preservation of parameter sections by the AI overlay -/

theorem setPath3_section {fp : PDict} {s k3 : String} {v : PVal} {fp' : PDict}
    (h : setPath3 fp "parameters" s k3 v = .ok fp') (k : String) :
    sectionHasKey fp' k = sectionHasKey fp k := by
  unfold setPath3 at h
  split at h
  · exact absurd h (by simp)
  case _ d2 heq =>
    split at h
    · exact absurd h (by simp)
    case _ d3 heq2 =>
      cases h
      have hfind : PDict.find? fp "parameters" = some (.dict d2) := PDict.getE_ok heq
      have hs : PDict.find? d2 s = some (.dict d3) := pyItemE_dict_ok heq2
      unfold sectionHasKey
      rw [PDict.find?_setK_self, hfind]
      show PDict.hasKey (PDict.setK d2 s (PVal.dict (PDict.setK d3 k3 v))) k = PDict.hasKey d2 k
      rw [PDict.hasKey_setK]
      by_cases hk : k = s
      · subst hk; simp [PDict.hasKey, hs]
      · simp [hk]
    · exact absurd h (by simp)
  · exact absurd h (by simp)

theorem setPath2_section {fp : PDict} {k2 : String} {v : PVal} {fp' : PDict}
    (h : setPath2 fp "parameters" k2 v = .ok fp') (k : String) (hk : k ≠ k2) :
    sectionHasKey fp' k = sectionHasKey fp k := by
  unfold setPath2 at h
  split at h
  · exact absurd h (by simp)
  case _ d heq =>
    cases h
    have hfind : PDict.find? fp "parameters" = some (.dict d) := PDict.getE_ok heq
    unfold sectionHasKey
    rw [PDict.find?_setK_self, hfind]
    show PDict.hasKey (PDict.setK d k2 v) k = PDict.hasKey d k
    rw [PDict.hasKey_setK]
    simp [hk]
  · exact absurd h (by simp)

theorem aiCodecParamStep_section {acc : PDict} {kv : String × PVal} {acc' : PDict}
    (h : FormatNorm.aiCodecParamStep acc kv = .ok acc') (k : String) :
    sectionHasKey acc' k = sectionHasKey acc k := by
  unfold FormatNorm.aiCodecParamStep at h
  split at h
  · exact absurd h (by simp)
  case _ ps heq =>
    split at h
    · exact absurd h (by simp)
    · exact setPath3_section h k
    · cases h; rfl

theorem aiFold_section : ∀ (cpd : List (String × PVal)) (fp fp' : PDict),
    cpd.foldlM FormatNorm.aiCodecParamStep fp = .ok fp' →
    ∀ k, sectionHasKey fp' k = sectionHasKey fp k := by
  intro cpd
  induction cpd with
  | nil =>
      intro fp fp' h k
      simp only [List.foldlM_nil] at h
      cases h; rfl
  | cons kv rest ih =>
      intro fp fp' h k
      rw [List.foldlM_cons] at h
      obtain ⟨acc, hstep, h⟩ := except_bind_ok h
      exact (ih acc fp' h k).trans (aiCodecParamStep_section hstep k)

theorem aiCbrChain_section {fp : PDict} {svalue : PVal} {fp' : PDict}
    (h : FormatNorm.aiCbrChain fp svalue = .ok fp') (k : String) :
    sectionHasKey fp' k = sectionHasKey fp k := by
  unfold FormatNorm.aiCbrChain at h
  split at h
  · exact absurd h (by simp)
  case _ a ha =>
    split at h
    · exact absurd h (by simp)
    case _ b hb =>
      split at h
      · exact absurd h (by simp)
      case _ c hc =>
        split at h
        case _ s =>
          split at h
          · exact absurd h (by simp)
          case _ n hn =>
            exact ((setPath3_section h k).trans (setPath3_section hc k)).trans
              ((setPath3_section hb k).trans (setPath3_section ha k))
        · exact absurd h (by simp)

theorem aiApplyCodecParams_section {fp : PDict} {r : PVal} {fp' : PDict}
    (h : FormatNorm.aiApplyCodecParams fp r = .ok fp') (k : String) :
    sectionHasKey fp' k = sectionHasKey fp k := by
  unfold FormatNorm.aiApplyCodecParams at h
  split at h
  · exact absurd h (by simp)
  · cases h; rfl
  · split at h
    · exact absurd h (by simp)
    case _ cpd heq => exact aiFold_section cpd fp fp' h k
    · cases h; rfl

theorem aiBitrateDispatch_section {fp : PDict} {st sv : PVal} {fp' : PDict}
    (h : FormatNorm.aiBitrateDispatch fp st sv = .ok fp') (k : String) :
    sectionHasKey fp' k = sectionHasKey fp k := by
  unfold FormatNorm.aiBitrateDispatch at h
  split at h
  · split at h
    · exact absurd h (by simp)
    · split at h
      · exact absurd h (by simp)
      · cases h; rfl
      · split at h
        · exact setPath3_section h k
        · split at h
          · exact aiCbrChain_section h k
          · split at h
            · exact setPath3_section h k
            · cases h; rfl
  · cases h; rfl

theorem aiApplyBitrate_section {fp : PDict} {r : PVal} {fp' : PDict}
    (h : FormatNorm.aiApplyBitrate fp r = .ok fp') (k : String) :
    sectionHasKey fp' k = sectionHasKey fp k := by
  unfold FormatNorm.aiApplyBitrate at h
  split at h
  · exact absurd h (by simp)
  · cases h; rfl
  · split at h
    · exact absurd h (by simp)
    · exact aiBitrateDispatch_section h k
    · cases h; rfl

theorem aiApplyOptions_section {fp : PDict} {r : PVal} {fp' : PDict}
    (h : FormatNorm.aiApplyOptions fp r = .ok fp') (k : String) (hk : k ≠ "ffmpeg_options") :
    sectionHasKey fp' k = sectionHasKey fp k := by
  unfold FormatNorm.aiApplyOptions at h
  split at h
  · exact absurd h (by simp)
  · cases h; rfl
  · split at h
    · exact absurd h (by simp)
    case _ opts heq =>
      split at h
      · exact absurd h (by simp)
      case _ ps hps =>
        split at h
        · exact absurd h (by simp)
        case _ hasK hin =>
          split at h
          · exact absurd h (by simp)
          case _ fpm hmid =>
            split at h
            · exact absurd h (by simp)
            case _ ps' hps' =>
              split at h
              · exact absurd h (by simp)
              case _ cs hcs =>
                have h2 : sectionHasKey fp' k = sectionHasKey fpm k :=
                  setPath2_section h k hk
                have h1 : sectionHasKey fpm k = sectionHasKey fp k := by
                  cases hasK with
                  | true => simp at hmid; cases hmid; rfl
                  | false => exact setPath2_section hmid k hk
                exact h2.trans h1
              · exact absurd h (by simp)
    · cases h; rfl

theorem apply_ai_section {fp ai : PDict} {fp' : PDict}
    (h : FormatNorm.apply_ai_recommendations fp ai = .ok fp') (k : String)
    (hk : k ≠ "ffmpeg_options") :
    sectionHasKey fp' k = sectionHasKey fp k := by
  unfold FormatNorm.apply_ai_recommendations FormatNorm.aiApplyAll at h
  split at h
  · cases h; rfl
  · split at h
    · exact absurd h (by simp)
    case _ fp1 h1 =>
      split at h
      · exact absurd h (by simp)
      case _ fp2 h2 =>
        exact ((aiApplyOptions_section h k hk).trans
          (aiApplyBitrate_section h2 k)).trans (aiApplyCodecParams_section h1 k)


/-! ## Command-builder decomposition -/

theorem convert_media_cmd_decomp {src out : String} {fp meta : PDict} {bv ba : Bool}
    {vf af ef ff : List PVal}
    (hbv : anyStreamTyped meta "codec_type" "video" = .ok bv)
    (hba : anyStreamTyped meta "codec_type" "audio" = .ok ba)
    (hvf : FormatNorm.videoSection fp bv = .ok vf)
    (haf : FormatNorm.audioSection fp ba = .ok af)
    (hef : FormatNorm.extraSection fp = .ok ef)
    (hff : FormatNorm.fmtSection fp = .ok ff) :
    FormatNorm.convert_media_cmd src out fp meta =
      .ok ([.str "ffmpeg", .str "-y", .str "-i", .str src]
           ++ vf ++ af ++ ef ++ ff ++ [.str out]) := by
  unfold FormatNorm.convert_media_cmd
  simp [hbv, hba, hvf, haf, hef, hff, Bind.bind, Except.bind, Pure.pure, Except.pure]

theorem videoSection_skip {fp pd : PDict}
    (hp : PDict.find? fp "parameters" = some (.dict pd))
    (hv : PDict.hasKey pd "video" = false) (b : Bool) :
    FormatNorm.videoSection fp b = .ok [] := by
  cases b
  · rfl
  · have hg : PDict.getE fp "parameters" = .ok (.dict pd) := by simp [PDict.getE, hp]
    unfold FormatNorm.videoSection
    simp [hg, pyInOp, hv, Bind.bind, Except.bind, Pure.pure, Except.pure]

theorem audioSection_skip (fp : PDict) : FormatNorm.audioSection fp false = .ok [] := rfl

theorem extraSection_skip {fp pd : PDict}
    (hp : PDict.find? fp "parameters" = some (.dict pd))
    (hfo : PDict.hasKey pd "ffmpeg_options" = false) :
    FormatNorm.extraSection fp = .ok [] := by
  have hg : PDict.getE fp "parameters" = .ok (.dict pd) := by simp [PDict.getE, hp]
  unfold FormatNorm.extraSection
  simp [hg, pyInOp, hfo, Bind.bind, Except.bind, Pure.pure, Except.pure]

theorem fmtSection_eval {fp : PDict} {f : String}
    (hf : PDict.find? fp "format" = some (.str f)) :
    FormatNorm.fmtSection fp =
      .ok (if f.isEmpty then [] else [.str "-f", .str f]) := by
  have hg : PDict.getE fp "format" = .ok (.str f) := by simp [PDict.getE, hf]
  unfold FormatNorm.fmtSection
  by_cases he : f.isEmpty
  · simp [hg, pyTruthy, he, Bind.bind, Except.bind, Pure.pure, Except.pure]
  · simp [hg, pyTruthy, he, Bind.bind, Except.bind, Pure.pure, Except.pure]

/-- C1 (amended): field-by-field precedence holds — with preset "web" and an
override video.crf=18 the resolved CRF is 18, and applying an AI CRF-22
recommendation on top yields CRF 22 (AI beats override beats preset); and the
AI overlay never introduces a brand-new video or audio top-level section —
the only section it can create is `ffmpeg_options` (which the original claim
ruled out, see the counterexample). -/
theorem c1_merge_precedence_and_sections :
    ((FormatNorm.prepare_format_parameters c1_target "web").map
        (fun fp => paramField fp "video" "crf") = .ok (some (.int 18)))
  ∧ (((FormatNorm.prepare_format_parameters c1_target "web").bind
        (fun fp => FormatNorm.apply_ai_recommendations fp c1_ai)).map
        (fun fp => paramField fp "video" "crf") = .ok (some (.int 22)))
  ∧ (∀ fp ai fp', FormatNorm.apply_ai_recommendations fp ai = .ok fp' →
      ∀ k, k ≠ "ffmpeg_options" → sectionHasKey fp' k = sectionHasKey fp k) :=
  ⟨by rfl, by rfl, fun fp ai fp' h k hk => apply_ai_section h k hk⟩

/-- C1 counterexample: AI recommendations carrying `ffmpeg_options` DO
introduce a brand-new top-level `ffmpeg_options` section into a parameters
mapping that previously had only video and audio sections, contradicting the
claim that no brand-new top-level section is ever introduced. -/
theorem c1_new_section_counterexample :
    FormatNorm.apply_ai_recommendations c1ce_fp c1ce_ai = .ok c1ce_fp2
  ∧ sectionHasKey c1ce_fp2 "ffmpeg_options" = true
  ∧ sectionHasKey c1ce_fp "ffmpeg_options" = false :=
  ⟨by rfl, by rfl, by rfl⟩

/-- C2 (code evaluation at the failing input): applying a CBR "5000k"
strategy sets bitrate, minrate and maxrate to "5000k" but bufsize to
"10000000k" — the code expands the "k" suffix to "000" before doubling and
then re-appends "k", a factor of 1000 above the documented bufsize = 2 times
the bitrate ("10000k"); VBR sets bitrate only, and an unknown strategy type
leaves the parameters unchanged, as the claim states. -/
theorem c2_cbr_bufsize_code_eval :
    ((FormatNorm.apply_ai_recommendations c2_fp c2_aiCBR).map
      (fun fp => (paramField fp "video" "bitrate", paramField fp "video" "minrate",
                  paramField fp "video" "maxrate", paramField fp "video" "bufsize"))
      = .ok (some (.str "5000k"), some (.str "5000k"), some (.str "5000k"),
             some (.str "10000000k")))
  ∧ ((FormatNorm.apply_ai_recommendations c2_fp c2_aiVBR).map
      (fun fp => (paramField fp "video" "bitrate", paramField fp "video" "minrate",
                  paramField fp "video" "maxrate", paramField fp "video" "bufsize"))
      = .ok (some (.str "4000k"), Option.none, Option.none, Option.none))
  ∧ FormatNorm.apply_ai_recommendations c2_fp c2_aiUnknown = .ok c2_fp :=
  ⟨by rfl, by rfl, by rfl⟩

/-- C3: for every spec whose only media section is audio (no video section,
no custom ffmpeg options) applied to a source descriptor without an audio
stream, the built command is just the base invocation plus the container flag
and output path, and contains none of the audio flags -c:a, -b:a, -ar, -ac;
the build succeeds without error. -/
theorem c3_audio_only_spec_no_audio_flags (src out f : String) (fp meta pd : PDict) (bv : Bool)
    (hp : PDict.find? fp "parameters" = some (.dict pd))
    (_ha : PDict.hasKey pd "audio" = true)
    (hv : PDict.hasKey pd "video" = false)
    (hfo : PDict.hasKey pd "ffmpeg_options" = false)
    (hf : PDict.find? fp "format" = some (.str f))
    (hbv : anyStreamTyped meta "codec_type" "video" = .ok bv)
    (hba : anyStreamTyped meta "codec_type" "audio" = .ok false)
    (hsrc : src ∉ ["-c:a", "-b:a", "-ar", "-ac"])
    (hout : out ∉ ["-c:a", "-b:a", "-ar", "-ac"])
    (hfmt : f ∉ ["-c:a", "-b:a", "-ar", "-ac"]) :
    FormatNorm.convert_media_cmd src out fp meta =
      .ok ([.str "ffmpeg", .str "-y", .str "-i", .str src]
           ++ [] ++ [] ++ [] ++ (if f.isEmpty then [] else [.str "-f", .str f]) ++ [.str out])
  ∧ ∀ fl ∈ ["-c:a", "-b:a", "-ar", "-ac"],
      PVal.str fl ∉ ([.str "ffmpeg", .str "-y", .str "-i", .str src]
           ++ [] ++ [] ++ [] ++ (if f.isEmpty then [] else [.str "-f", .str f]) ++ [.str out]) := by
  constructor
  · exact convert_media_cmd_decomp hbv hba (videoSection_skip hp hv bv)
      (audioSection_skip fp) (extraSection_skip hp hfo) (fmtSection_eval hf)
  · intro fl hfl
    have hfl' : fl = "-c:a" ∨ fl = "-b:a" ∨ fl = "-ar" ∨ fl = "-ac" := by
      simpa using hfl
    have hsrc' : src ≠ fl := by
      rcases hfl' with h | h | h | h <;> subst h <;> simp at hsrc hout hfmt <;> tauto
    have hout' : out ≠ fl := by
      rcases hfl' with h | h | h | h <;> subst h <;> simp at hsrc hout hfmt <;> tauto
    have hfmt' : f ≠ fl := by
      rcases hfl' with h | h | h | h <;> subst h <;> simp at hsrc hout hfmt <;> tauto
    by_cases he : f.isEmpty <;>
      rcases hfl' with h | h | h | h <;> subst h <;>
      simp [he, hsrc'.symm, hout'.symm, hfmt'.symm]

/-- C4 (amended): the built argument sequence is always global options, then
video flags, then audio flags, then the caller-supplied extra options
verbatim in caller order, then the builder-generated container `-f` flags,
with the output path as the single final argument.  The container flag comes
AFTER the extra options, not before (see the counterexample against the
original claim). -/
theorem c4_command_ordering_amended (src out : String) (fp meta : PDict) (bv ba : Bool)
    (vf af ef ff : List PVal)
    (hbv : anyStreamTyped meta "codec_type" "video" = .ok bv)
    (hba : anyStreamTyped meta "codec_type" "audio" = .ok ba)
    (hvf : FormatNorm.videoSection fp bv = .ok vf)
    (haf : FormatNorm.audioSection fp ba = .ok af)
    (hef : FormatNorm.extraSection fp = .ok ef)
    (hff : FormatNorm.fmtSection fp = .ok ff) :
    FormatNorm.convert_media_cmd src out fp meta =
      .ok ([.str "ffmpeg", .str "-y", .str "-i", .str src]
           ++ vf ++ af ++ ef ++ ff ++ [.str out])
  ∧ ([PVal.str "ffmpeg", PVal.str "-y", PVal.str "-i", PVal.str src]
           ++ vf ++ af ++ ef ++ ff ++ [PVal.str out]).getLast? = some (PVal.str out) := by
  refine ⟨convert_media_cmd_decomp hbv hba hvf haf hef hff, ?_⟩
  have h : [PVal.str "ffmpeg", PVal.str "-y", PVal.str "-i", PVal.str src]
           ++ vf ++ af ++ ef ++ ff ++ [PVal.str out]
         = ([PVal.str "ffmpeg", PVal.str "-y", PVal.str "-i", PVal.str src]
            ++ vf ++ af ++ ef ++ ff) ++ [PVal.str out] := by simp
  rw [h, List.getLast?_concat]

/-- C4 counterexample: for a spec with custom options and container mp4 the
builder emits `-f mp4` after the caller-supplied `-tune film`, so a
builder-generated flag does appear after the extra encoder flags,
contradicting the original claim. -/
theorem c4_builder_flag_after_extras_counterexample :
    FormatNorm.convert_media_cmd "in.mov" "out.mp4" c4ce_fp c4ce_meta = .ok c4ce_cmd
  ∧ c4ce_cmd.indexOf (PVal.str "-tune") < c4ce_cmd.indexOf (PVal.str "-f")
  ∧ PVal.str "-f" ∈ c4ce_cmd.drop (c4ce_cmd.indexOf (PVal.str "-tune")) :=
  ⟨by rfl, by decide, by decide⟩

/-- C5 counterexample: the format_normalizer builder, given the resolved
web/webm (vp9) spec and a source with a video stream, emits no -b:v flag at
all, contradicting the claim that every vp9/av1 build contains the forced
pair -b:v 0. -/
theorem c5_formatnorm_missing_zero_bitrate_counterexample :
    FormatNorm.convert_media_cmd "in.mov" "out.webm" c5ce_fp c5ce_meta = .ok c5ce_cmd
  ∧ PVal.str "-b:v" ∉ c5ce_cmd :=
  ⟨by rfl, by decide⟩

theorem videoSectionSS_vp9av1 {enc : PDict} {vd : PDict} {c : String}
    (hvd : PDict.getD enc "video" (.dict []) = .dict vd)
    (hne : vd ≠ [])
    (hc : PDict.getD vd "codec" .none = .str c)
    (hcc : c = "vp9" ∨ c = "av1") :
    SrcNorm.videoSectionSS enc =
      .ok [PVal.str "-c:v", PVal.str c, PVal.str "-crf",
           PVal.str (pyStr (PDict.getD vd "crf" (.int 30))), PVal.str "-b:v", PVal.str "0"] := by
  unfold SrcNorm.videoSectionSS
  rw [hvd]
  have ht : pyTruthy (PVal.dict vd) = true := by
    simp [pyTruthy, List.isEmpty_eq_true, hne]
  rcases hcc with h | h <;> subst h <;>
    simp [ht, hc, pyTruthy, hne, String.isEmpty, Bind.bind, Except.bind, Pure.pure,
          Except.pure] <;>
    rw [if_neg (by decide)] <;> rfl

/-- C5 (amended): in the src/src command builder, every encode-parameter
mapping whose video codec is vp9 or av1 yields a command containing the
contiguous flags -crf <crf> -b:v 0, for any source descriptor (the builder
never consults one).  The format_normalizer builder lacks this forced pair
(see the counterexample). -/
theorem c5_srcsrc_vp9_av1_forced_zero_bitrate (input output : String) (enc : PDict) (vd : PDict) (c : String)
    (hw pm : Bool) (af : List PVal)
    (hvd : PDict.getD enc "video" (.dict []) = .dict vd)
    (hne : vd ≠ [])
    (hc : PDict.getD vd "codec" .none = .str c)
    (hcc : c = "vp9" ∨ c = "av1")
    (haf : SrcNorm.audioSectionSS enc = .ok af) :
    SrcNorm.build_ffmpeg_command input output enc hw pm =
      .ok ([PVal.str "ffmpeg", PVal.str "-y", PVal.str "-i", PVal.str input]
           ++ (if hw then [PVal.str "-hwaccel", PVal.str "auto"] else [])
           ++ ([PVal.str "-c:v", PVal.str c] ++
               [PVal.str "-crf", PVal.str (pyStr (PDict.getD vd "crf" (.int 30))),
                PVal.str "-b:v", PVal.str "0"])
           ++ af
           ++ (if pm then [PVal.str "-map_metadata", PVal.str "0"] else [])
           ++ [PVal.str output]) := by
  unfold SrcNorm.build_ffmpeg_command
  rw [videoSectionSS_vp9av1 hvd hne hc hcc]
  simp [haf, Bind.bind, Except.bind, Pure.pure, Except.pure]

/-- C6 (amended): the validator treats output codec libx264 as matching
requested h264 (no issue) and aac_lc as matching requested aac (no issue),
but for requested codec vp9 the video-codec check is silent for EVERY output
codec value — only the h264 and h265 alias families are compared, so a
vp8-vs-vp9 mismatch is never flagged (the original claim said it fails). -/
theorem c6_codec_alias_validation_amended :
    (∀ oc : String, FormatNorm.validate_output c6_src (c6_outV oc) c6_tgtVp9 = ⟨true, []⟩)
  ∧ FormatNorm.validate_output c6_src (c6_outV "libx264") c6_tgtH264 = ⟨true, []⟩
  ∧ FormatNorm.validate_output c6_src c6_outAac c6_tgtAac = ⟨true, []⟩ :=
  ⟨fun oc => rfl, by decide, by decide⟩

/-- C6 counterexample: with requested codec vp9 and output codec vp8 the
validator returns passed=true with no issues, contradicting the claim that
an issue is appended and passed becomes false. -/
theorem c6_vp8_vs_vp9_not_flagged_counterexample :
    FormatNorm.validate_output c6_src (c6_outV "vp8") c6_tgtVp9 = ⟨true, []⟩ := by decide

/-- C7 (amended): the src/src validator short-circuits — a missing output
file yields passed=false with exactly the single missing-file issue, and an
existing but zero-size file yields passed=false with exactly the single
empty-file issue, with no further checks run.  The format_normalizer
validator does not short-circuit (see the counterexample). -/
theorem c7_srcsrc_validator_shortcircuit :
    (∀ (sz : Nat) (out enc : PDict),
       SrcNorm.validate_output false sz out enc = .ok ⟨false, ["Output file does not exist"]⟩)
  ∧ (∀ out enc : PDict,
       SrcNorm.validate_output true 0 out enc = .ok ⟨false, ["Output file is empty"]⟩) :=
  ⟨fun _ _ _ => rfl, fun _ _ => rfl⟩

/-- C7 counterexample: in the format_normalizer validator a zero-size output
does flip passed to false, but the duration check still runs afterwards and
appends a further issue after the fatal one, contradicting the claim that
none of the remaining checks run. -/
theorem c7_formatnorm_no_shortcircuit_counterexample :
    FormatNorm.validate_output c7ce_src c7ce_out c7ce_tgt =
      ⟨false, ["Output file has zero size",
               "Duration changed by 90.0% (100.00s -> 10.00s)"]⟩ := by decide

/-- C8: whenever the encoder exits zero, the output file exists and the
remaining pipeline stages succeed, normalize returns the success record with
the validation result attached — with no condition whatsoever on
validation.passed, so a failing validation never fails the job and raises
no exception. -/
theorem c8_completed_despite_failed_validation (env : SrcNorm.EnvSS) (source : String)
    (tf codec preset op : Option String) (opts : SrcNorm.OptionsSS)
    (ofmt : String) (enc : PDict) (cmd : List PVal) (v : Validation)
    (cr : PyFloat) (pc : PVal) (res : PDict) (trans : List PDict)
    (hvo : opts.validateOutput = true)
    (hof : SrcNorm.outputFormatStage tf env.sourceInfo = .ok ofmt)
    (henc : SrcNorm.resolveParamsSS preset codec
      (if opts.enableAI then
        SrcNorm.analyze_media_with_gemini env.geminiKey env.aiMediaInfo
       else []) = .ok enc)
    (hmk : env.mkdirError = Option.none)
    (hcmd : SrcNorm.build_ffmpeg_command source (SrcNorm.outputPathStage op source ofmt)
      enc env.hwaccel opts.preserveMetadata = .ok cmd)
    (hexit : env.returncode = 0)
    (_hexists : env.outputExists = true)
    (hval : SrcNorm.validate_output env.outputExists env.outputSize env.outputInfo enc = .ok v)
    (hcr : SrcNorm.compressRateSS env.sourceInfo env.outputInfo = .ok cr)
    (hpc : SrcNorm.get_primary_codec env.outputInfo = .ok pc)
    (hres : SrcNorm.get_resolution env.outputInfo = .ok res)
    (htr : SrcNorm.get_transformations env.sourceInfo env.outputInfo = .ok trans) :
    SrcNorm.normalize env source tf codec preset op opts =
      SrcNorm.ResultSS.completed {
        jobId := env.jobId,
        uri := SrcNorm.outputPathStage op source ofmt,
        fmt := PDict.getD env.outputInfo "format" (.str ""),
        codec := pc,
        duration := PDict.getD env.outputInfo "duration" (.int 0),
        fileSize := PDict.getD env.outputInfo "size" (.int 0),
        resolution := res,
        original := if opts.preserveMetadata then env.sourceInfo else [],
        technical := env.outputInfo,
        transformations := trans,
        processingTime := env.processingTime,
        compressRate := cr,
        validation := v } := by
  unfold SrcNorm.normalize SrcNorm.normalizeInner
  simp [hof, henc, hmk, hcmd, hexit, hvo, hval, hcr, hpc, hres, htr,
        Bind.bind, Except.bind, Pure.pure, Except.pure]

/-- C9 (amended): the frame-rate parser returns num/den for a two-part
fraction whose denominator parses to a positive int, fails closed to 0 when
the denominator is non-positive or the split does not have exactly two
parts, but propagates a ValueError when int() rejects a part that is reached
— it is not total on malformed input (see the counterexample). -/
theorem c9_frame_rate_parse_amended :
    (∀ (s ns ds : String) (n d : Int),
      pySplitChar '/' s = [ns, ds] → pyIntStr ns = .ok n → pyIntStr ds = .ok d → 0 < d →
      DriveNorm.calculate_frame_rate [("r_frame_rate", .str s)] =
        .ok (PyFloat.ofInt n / PyFloat.ofInt d))
  ∧ (∀ (s ns ds : String) (d : Int),
      pySplitChar '/' s = [ns, ds] → pyIntStr ds = .ok d → d ≤ 0 →
      DriveNorm.calculate_frame_rate [("r_frame_rate", .str s)] = .ok 0)
  ∧ (∀ (s : String), (pySplitChar '/' s).length ≠ 2 →
      DriveNorm.calculate_frame_rate [("r_frame_rate", .str s)] = .ok 0)
  ∧ (∀ (s ns ds : String) (e : String),
      pySplitChar '/' s = [ns, ds] → pyIntStr ds = .error e →
      DriveNorm.calculate_frame_rate [("r_frame_rate", .str s)] = .error e) := by
  refine ⟨?_, ?_, ?_, ?_⟩
  · intro s ns ds n d hsplit hn hd hdpos
    unfold DriveNorm.calculate_frame_rate DriveNorm.frameRateTry
    simp [PDict.find?, hsplit, hn, hd, hdpos, Bind.bind, Except.bind, Pure.pure, Except.pure]
  · intro s ns ds d hsplit hd hdle
    unfold DriveNorm.calculate_frame_rate DriveNorm.frameRateTry
    have : ¬(0 < d) := by omega
    simp [PDict.find?, hsplit, hd, this, Bind.bind, Except.bind, Pure.pure, Except.pure]
  · intro s hlen
    unfold DriveNorm.calculate_frame_rate DriveNorm.frameRateTry
    rcases hp : pySplitChar '/' s with _ | ⟨a, _ | ⟨b, _ | ⟨c, rest⟩⟩⟩
    · simp [PDict.find?, hp, Bind.bind, Except.bind, Pure.pure, Except.pure]
    · simp [PDict.find?, hp, Bind.bind, Except.bind, Pure.pure, Except.pure]
    · rw [hp] at hlen; simp at hlen
    · simp [PDict.find?, hp, Bind.bind, Except.bind, Pure.pure, Except.pure]
  · intro s ns ds e hsplit he
    unfold DriveNorm.calculate_frame_rate DriveNorm.frameRateTry
    simp [PDict.find?, hsplit, he, Bind.bind, Except.bind, Pure.pure, Except.pure]

/-- C10: whenever the check sequence of the format_normalizer validator
raises with message e after accumulating some issues, validate still returns
a result: passed is false and a "Validation error" issue is appended after
the issues already recorded.  (By its type the embedded validator is total:
every exception path ends in this handler.) -/
theorem c10_validator_total_catches_exceptions (src out tgt : PDict) (e : String) (st : Validation)
    (h : FormatNorm.validateChecks src out tgt ⟨true, []⟩ = .error e st) :
    FormatNorm.validate_output src out tgt =
      ⟨false, st.issues ++ ["Validation error: " ++ e]⟩ := by
  unfold FormatNorm.validate_output
  rw [h]


/-- C1 witness: the section-preservation part of the amended theorem applied
at a concrete resolver state and AI recommendation. -/
theorem c1_merge_precedence_and_sections_witness :
    sectionHasKey c1ce_fp2 "video" = sectionHasKey c1ce_fp "video" :=
  c1_merge_precedence_and_sections.2.2 c1ce_fp c1ce_ai c1ce_fp2 (by rfl) "video" (by decide)

/-- C3 witness: an mp3-only spec applied to a video-only source builds
without error and without audio flags. -/
theorem c3_audio_only_spec_no_audio_flags_witness :
    FormatNorm.convert_media_cmd "src.wav" "out.mp3" c3w_fp c3w_meta =
      .ok ([PVal.str "ffmpeg", PVal.str "-y", PVal.str "-i", PVal.str "src.wav"]
           ++ ([] : List PVal) ++ ([] : List PVal) ++ ([] : List PVal)
           ++ (if ("mp3" : String).isEmpty then [] else [PVal.str "-f", PVal.str "mp3"])
           ++ [PVal.str "out.mp3"])
  ∧ ∀ fl ∈ ["-c:a", "-b:a", "-ar", "-ac"],
      PVal.str fl ∉ ([PVal.str "ffmpeg", PVal.str "-y", PVal.str "-i", PVal.str "src.wav"]
           ++ ([] : List PVal) ++ ([] : List PVal) ++ ([] : List PVal)
           ++ (if ("mp3" : String).isEmpty then [] else [PVal.str "-f", PVal.str "mp3"])
           ++ [PVal.str "out.mp3"]) :=
  c3_audio_only_spec_no_audio_flags "src.wav" "out.mp3" "mp3" c3w_fp c3w_meta
    [("audio", .dict [("codec", .str "mp3"), ("bitrate", .str "192k")])] true
    (by rfl) (by rfl) (by rfl) (by rfl) (by rfl) (by rfl) (by rfl)
    (by decide) (by decide) (by decide)

/-- C4 witness: the ordering decomposition applied at a concrete spec with
extra options. -/
theorem c4_command_ordering_amended_witness :
    FormatNorm.convert_media_cmd "in.mov" "out.mp4" c4ce_fp c4ce_meta =
      .ok ([PVal.str "ffmpeg", PVal.str "-y", PVal.str "-i", PVal.str "in.mov"]
           ++ [PVal.str "-c:v", PVal.str "libx264", PVal.str "-crf", PVal.str "23",
               PVal.str "-preset", PVal.str "medium"]
           ++ ([] : List PVal) ++ [PVal.str "-tune", PVal.str "film"]
           ++ [PVal.str "-f", PVal.str "mp4"] ++ [PVal.str "out.mp4"])
  ∧ ([PVal.str "ffmpeg", PVal.str "-y", PVal.str "-i", PVal.str "in.mov"]
           ++ [PVal.str "-c:v", PVal.str "libx264", PVal.str "-crf", PVal.str "23",
               PVal.str "-preset", PVal.str "medium"]
           ++ ([] : List PVal) ++ [PVal.str "-tune", PVal.str "film"]
           ++ [PVal.str "-f", PVal.str "mp4"]
           ++ [PVal.str "out.mp4"]).getLast? = some (PVal.str "out.mp4") :=
  c4_command_ordering_amended "in.mov" "out.mp4" c4ce_fp c4ce_meta true false
    [PVal.str "-c:v", PVal.str "libx264", PVal.str "-crf", PVal.str "23",
     PVal.str "-preset", PVal.str "medium"]
    [] [PVal.str "-tune", PVal.str "film"] [PVal.str "-f", PVal.str "mp4"]
    (by rfl) (by rfl) (by rfl) (by rfl) (by rfl) (by rfl)

/-- C5 witness: the src/src builder applied to a concrete vp9 mapping. -/
theorem c5_srcsrc_vp9_av1_forced_zero_bitrate_witness :
    SrcNorm.build_ffmpeg_command "a.mp4" "b.webm" c5w_enc false false =
      .ok ([PVal.str "ffmpeg", PVal.str "-y", PVal.str "-i", PVal.str "a.mp4"]
           ++ (if false then [PVal.str "-hwaccel", PVal.str "auto"] else [])
           ++ ([PVal.str "-c:v", PVal.str "vp9"] ++
               [PVal.str "-crf", PVal.str (pyStr (PDict.getD [("codec", PVal.str "vp9"), ("crf", PVal.int 31)] "crf" (.int 30))),
                PVal.str "-b:v", PVal.str "0"])
           ++ []
           ++ (if false then [PVal.str "-map_metadata", PVal.str "0"] else [])
           ++ [PVal.str "b.webm"]) :=
  c5_srcsrc_vp9_av1_forced_zero_bitrate "a.mp4" "b.webm" c5w_enc [("codec", PVal.str "vp9"), ("crf", PVal.int 31)] "vp9"
    false false []
    (by rfl) (by decide) (by rfl) (Or.inl rfl) (by rfl)

/-- C8 witness: a concrete run whose validation fails (video codec mismatch)
still completes with success and carries the failing validation. -/
theorem c8_completed_despite_failed_validation_witness :
    SrcNorm.validate_output true 500 c8w_env.outputInfo c8w_enc = .ok c8w_validation
  ∧ c8w_validation.passed = false
  ∧ SrcNorm.normalize c8w_env "src.avi" (some "mp4") Option.none (some "web")
      (some "/tmp/out.mp4") c8w_opts
    = SrcNorm.ResultSS.completed {
        jobId := "job1",
        uri := "/tmp/out.mp4",
        fmt := .str "mp4",
        codec := .str "mpeg4",
        duration := .int 5,
        fileSize := .int 500,
        resolution := [("width", .int 0), ("height", .int 0)],
        original := c8w_env.sourceInfo,
        technical := c8w_env.outputInfo,
        transformations :=
          [[("type", .str "format_conversion"), ("from", .str "avi"), ("to", .str "mp4")],
           [("type", .str "video_codec_conversion"), ("from", .none), ("to", .str "mpeg4")]],
        processingTime := 2,
        compressRate := ⟨1000, 500⟩,
        validation := c8w_validation } :=
  ⟨by rfl, by rfl,
   c8_completed_despite_failed_validation c8w_env "src.avi" (some "mp4") Option.none (some "web") (some "/tmp/out.mp4")
     c8w_opts "mp4" c8w_enc
     [PVal.str "ffmpeg", PVal.str "-y", PVal.str "-i", PVal.str "src.avi",
      PVal.str "-hwaccel", PVal.str "auto", PVal.str "-c:v", PVal.str "h264",
      PVal.str "-crf", PVal.str "23", PVal.str "-preset", PVal.str "medium",
      PVal.str "-c:a", PVal.str "aac", PVal.str "-b:a", PVal.str "128k",
      PVal.str "-map_metadata", PVal.str "0", PVal.str "/tmp/out.mp4"]
     c8w_validation ⟨1000, 500⟩ (.str "mpeg4")
     [("width", .int 0), ("height", .int 0)]
     [[("type", .str "format_conversion"), ("from", .str "avi"), ("to", .str "mp4")],
      [("type", .str "video_codec_conversion"), ("from", .none), ("to", .str "mpeg4")]]
     (by rfl) (by rfl) (by rfl) (by rfl) (by rfl) (by rfl) (by rfl) (by rfl)
     (by rfl) (by rfl) (by rfl) (by rfl)⟩

/-- C9 witness: the well-formed case applied at "30/1". -/
theorem c9_frame_rate_parse_amended_witness :
    DriveNorm.calculate_frame_rate [("r_frame_rate", PVal.str "30/1")] =
      .ok (PyFloat.ofInt 30 / PyFloat.ofInt 1) :=
  c9_frame_rate_parse_amended.1 "30/1" "30" "1" 30 1 (by rfl) (by rfl) (by rfl) (by decide)

/-- C9 counterexample: on the malformed fraction "a/b" the parser raises a
ValueError instead of returning 0, contradicting the claim that it returns 0
on any malformed input without raising. -/
theorem c9_frame_rate_nonnumeric_raises_counterexample :
    DriveNorm.calculate_frame_rate [("r_frame_rate", PVal.str "a/b")] =
      .error "ValueError: invalid int literal: b" := by rfl

/-- C10 witness: a target mapping missing the `parameters` key raises a
KeyError inside the audio check; validate returns passed=false with the
prior format issue followed by the Validation error issue. -/
theorem c10_validator_total_catches_exceptions_witness :
    FormatNorm.validate_output [] c10w_out c10w_tgt =
      ⟨false, ["Expected format mp4, got avi", "Validation error: KeyError: parameters"]⟩ :=
  c10_validator_total_catches_exceptions [] c10w_out c10w_tgt "KeyError: parameters"
    ⟨false, ["Expected format mp4, got avi"]⟩ (by rfl)
